import Mathlib

/-!
Verification development for the Elyx conversation-simulation pipeline
(`src/task1/src`): event scheduler, biomarker state evolution, adherence
model, content engine (suppression gate, cleanup pass, enhancement
fallback) and the driver loop.

Modelling conventions (shallow embedding of the Python source):
* Python floats are modelled as exact rationals (`ℚ`).
* Every call into the process-wide `random` generator is modelled as
  consuming one element of an abstract stream held in an explicit `Rng`
  state (`ints` drives `randint` / `choice` / `sample`, `rats` drives
  `random()` / `gauss` / `uniform`).  The draw *order* follows the source;
  the distribution of the draws is irrelevant to every property proved
  here, so a draw is one stream element.
* `datetime` values are modelled by `SimTime` (day index relative to the
  simulation start Monday, plus wall-clock hour/minute); the default run
  configuration starts on Monday 2025-01-06, so weekday = day mod 7 with
  0 = Monday.
* Python strings are modelled as `List Char`; each regular-expression
  substitution used by the source is implemented as a concrete scanning
  function with the same matching semantics on the character sets the
  source manipulates (ASCII text plus a few fixed punctuation code
  points).
-/

namespace Elyx

/-- Clamp a rational into the interval `[lo, hi]`, mirroring the Python
idiom `min(max(x, lo), hi)`. -/
def clampQ (lo hi x : ℚ) : ℚ := min (max x lo) hi

/-- Round to the nearest integer, ties to even (the rounding Python's
`round` applies to the exact value). -/
def roundHalfEven (x : ℚ) : ℤ :=
  let f := ⌊x⌋
  let r := x - f
  if r < 1/2 then f
  else if 1/2 < r then f + 1
  else if f % 2 = 0 then f else f + 1

/-- Abstract randomness source: two streams with cursors, threaded
explicitly.  Models the single process-wide `random` generator that
`run.py` seeds once at start. -/
structure Rng where
  ints : ℕ → ℕ
  rats : ℕ → ℚ
  i : ℕ
  q : ℕ

/-- Draw the next element of the integer stream. -/
def Rng.nextNat (r : Rng) : ℕ × Rng := (r.ints r.i, { r with i := r.i + 1 })

/-- Draw the next element of the rational stream. -/
def Rng.nextRat (r : Rng) : ℚ × Rng := (r.rats r.q, { r with q := r.q + 1 })

/-- Model of `random.randint(lo, hi)` (inclusive on both ends). -/
def Rng.randint (r : Rng) (lo hi : ℤ) : ℤ × Rng :=
  let (n, r') := r.nextNat
  (lo + (n % (hi - lo + 1).toNat : ℕ), r')

/-- Model of `random.choice(l)`; `d` is returned for an empty list (every
call site in the source passes a non-empty literal list). -/
def Rng.choice {α : Type} (r : Rng) (l : List α) (d : α) : α × Rng :=
  let (n, r') := r.nextNat
  (l.getD (n % l.length) d, r')

/-- Model of `random.random()`. -/
def Rng.rand (r : Rng) : ℚ × Rng := r.nextRat

/-- Model of `random.gauss(mu, sigma)`: an arbitrary stream draw scaled
into `mu + sigma * x` (the support of a Gaussian is unbounded, so the
draw is unconstrained). -/
def Rng.gauss (r : Rng) (mu sigma : ℚ) : ℚ × Rng :=
  let (x, r') := r.nextRat
  (mu + sigma * x, r')

/-- Model of `random.uniform(a, b)`. -/
def Rng.uniform (r : Rng) (a b : ℚ) : ℚ × Rng :=
  let (x, r') := r.nextRat
  (a + (b - a) * x, r')

/-- Model of `random.sample(l, k)`: `k` distinct positions drawn without
replacement. -/
def Rng.sample {α : Type} (r : Rng) (l : List α) (k : ℕ) (d : α) :
    List α × Rng :=
  match k, l with
  | 0, _ => ([], r)
  | _, [] => ([], r)
  | Nat.succ k', l =>
    let (n, r') := r.nextNat
    let idx := n % l.length
    let x := l.getD idx d
    let (rest, r'') := Rng.sample r' (l.eraseIdx idx) k' d
    (x :: rest, r'')

/-- Model of `interventions.bernoulli(p)`: `random.random() < p`. -/
def Rng.bernoulli (r : Rng) (p : ℚ) : Bool × Rng :=
  let (x, r') := r.nextRat
  (if x < p then true else false, r')

-- ---------------------------------------------------------------------------
-- interventions.py
-- ---------------------------------------------------------------------------

/-- A weekly intervention with effect vectors on the biomarker state
(`interventions.Intervention`). -/
structure Intervention where
  name : String
  domain : String
  effect_vector : List (String × ℚ)
  time_cost_hours : ℚ
  recommended_by : String
  base_adherence : ℚ := 0.50

/-- The canonical intervention catalog (`interventions.default_interventions`). -/
def default_interventions : List Intervention :=
  [ { name := "Mediterranean-pattern meals; reduce refined carbs"
    , domain := "Nutrition"
    , effect_vector := [("apob", -0.7), ("ldl_c", -0.9), ("hs_crp", -0.06), ("bmi", -0.03)]
    , time_cost_hours := 1.5
    , recommended_by := "Carla" }
  , { name := "Omega-3 (EPA/DHA) supplementation"
    , domain := "Nutrition"
    , effect_vector := [("apob", -0.4), ("hs_crp", -0.05)]
    , time_cost_hours := 0.1
    , recommended_by := "Carla" }
  , { name := "Caffeine cutoff at 13:00"
    , domain := "Sleep"
    , effect_vector := [("sleep_hours", 0.10), ("hrv_ms", 0.5), ("rhr_bpm", -0.2)]
    , time_cost_hours := 0.0
    , recommended_by := "Carla" }
  , { name := "Morning light exposure (10–15 min)"
    , domain := "Sleep/Stress"
    , effect_vector := [("sleep_hours", 0.08), ("hrv_ms", 0.6), ("rhr_bpm", -0.2)]
    , time_cost_hours := 0.3
    , recommended_by := "Advik" }
  , { name := "Zone-2 calibration run (1×/wk)"
    , domain := "Cardio"
    , effect_vector := [("hrv_ms", 0.7), ("rhr_bpm", -0.3), ("systolic_bp", -0.6), ("diastolic_bp", -0.4)]
    , time_cost_hours := 0.8
    , recommended_by := "Advik" }
  , { name := "Strength training (2×/wk) + daily 10-min mobility"
    , domain := "PT"
    , effect_vector := [("bmi", -0.04), ("systolic_bp", -0.5), ("diastolic_bp", -0.3)]
    , time_cost_hours := 2.2
    , recommended_by := "Rachel" }
  , { name := "Sodium awareness (restaurant swaps when traveling)"
    , domain := "Nutrition/Travel"
    , effect_vector := [("systolic_bp", -0.4), ("diastolic_bp", -0.3)]
    , time_cost_hours := 0.2
    , recommended_by := "Carla" } ]

/-- Adherence probability with fixed additive modifiers and final clamp
(`interventions.weekly_adherence_probability`). -/
def weekly_adherence_probability (base : ℚ) (travel pa_support busy_week
    last_week_win : Bool) (weekly_hours : ℚ) : ℚ :=
  let p := base
  let p := if travel then p - 0.15 else p
  let p := if busy_week then p - 0.10 else p
  let p := if pa_support then p + 0.10 else p
  let p := if last_week_win then p + 0.05 else p
  let p := if weekly_hours > 5.0 then p - 0.10 else p
  max 0.05 (min 0.95 p)

-- ---------------------------------------------------------------------------
-- state.py
-- ---------------------------------------------------------------------------

/-- Biomarker and wearable metrics (`state.BiomarkerState`), floats as
exact rationals. -/
structure BiomarkerState where
  systolic_bp : ℚ := 134.0
  diastolic_bp : ℚ := 86.0
  apob : ℚ := 105.0
  ldl_c : ℚ := 140.0
  hs_crp : ℚ := 2.2
  hba1c : ℚ := 5.7
  bmi : ℚ := 26.0
  hrv_ms : ℚ := 40.0
  rhr_bpm : ℚ := 66.0
  sleep_hours : ℚ := 6.25
  week_index : ℕ := 0
  adherence_log : List (String × Bool) := []
  weekly_hours_committed : ℚ := 5.0
  weekly_hours_completed : ℚ := 0.0

namespace BiomarkerState

/-- Model of `BiomarkerState._apply_delta`: mutate the named metric if it
exists; unknown keys are ignored. -/
def applyDelta (s : BiomarkerState) (key : String) (delta : ℚ) : BiomarkerState :=
  if key = "systolic_bp" then { s with systolic_bp := s.systolic_bp + delta }
  else if key = "diastolic_bp" then { s with diastolic_bp := s.diastolic_bp + delta }
  else if key = "apob" then { s with apob := s.apob + delta }
  else if key = "ldl_c" then { s with ldl_c := s.ldl_c + delta }
  else if key = "hs_crp" then { s with hs_crp := s.hs_crp + delta }
  else if key = "hba1c" then { s with hba1c := s.hba1c + delta }
  else if key = "bmi" then { s with bmi := s.bmi + delta }
  else if key = "hrv_ms" then { s with hrv_ms := s.hrv_ms + delta }
  else if key = "rhr_bpm" then { s with rhr_bpm := s.rhr_bpm + delta }
  else if key = "sleep_hours" then { s with sleep_hours := s.sleep_hours + delta }
  else s

/-- Model of `BiomarkerState.apply_intervention_effects`. -/
def apply_intervention_effects (s : BiomarkerState)
    (vec : List (String × ℚ)) (adhered : Bool) : BiomarkerState :=
  if adhered then vec.foldl (fun st kv => st.applyDelta kv.1 kv.2) s else s

/-- Model of `BiomarkerState.apply_travel_penalty`. -/
def apply_travel_penalty (s : BiomarkerState) : BiomarkerState :=
  ((((s.applyDelta "sleep_hours" (-0.20)).applyDelta "hrv_ms" (-1.0)
    ).applyDelta "rhr_bpm" 1.0).applyDelta "systolic_bp" 0.5
    ).applyDelta "diastolic_bp" 0.3

/-- Per-metric noise standard deviations, in the dict order of
`state.BiomarkerState.add_noise`. -/
def noise_spec : List (String × ℚ) :=
  [ ("systolic_bp", 0.4), ("diastolic_bp", 0.3), ("apob", 0.6), ("ldl_c", 0.8)
  , ("hs_crp", 0.10), ("hba1c", 0.02), ("bmi", 0.03), ("hrv_ms", 0.8)
  , ("rhr_bpm", 0.5), ("sleep_hours", 0.10) ]

/-- Model of `BiomarkerState.add_noise`: one Gaussian draw per metric. -/
def add_noise (s : BiomarkerState) (r : Rng) : BiomarkerState × Rng :=
  noise_spec.foldl
    (fun acc kv =>
      let (jitter, r') := acc.2.gauss 0 kv.2
      (acc.1.applyDelta kv.1 jitter, r'))
    (s, r)

/-- Model of `BiomarkerState.weekly_bounds`: clamp all metrics to their
physiological bands. -/
def weekly_bounds (s : BiomarkerState) : BiomarkerState :=
  { s with
    systolic_bp := clampQ 95.0 170.0 s.systolic_bp
    diastolic_bp := clampQ 55.0 110.0 s.diastolic_bp
    apob := clampQ 50.0 200.0 s.apob
    ldl_c := clampQ 40.0 250.0 s.ldl_c
    hs_crp := clampQ 0.2 10.0 s.hs_crp
    hba1c := clampQ 4.8 7.0 s.hba1c
    bmi := clampQ 18.0 35.0 s.bmi
    hrv_ms := clampQ 20.0 120.0 s.hrv_ms
    rhr_bpm := clampQ 45.0 90.0 s.rhr_bpm
    sleep_hours := clampQ 4.0 9.0 s.sleep_hours }

/-- Model of `BiomarkerState.sample_weekly_hours`: Gaussian draw around 5,
clamped to `[2, 7]` and rounded to one decimal. -/
def sample_weekly_hours (s : BiomarkerState) (r : Rng) :
    ℚ × BiomarkerState × Rng :=
  let (val, r') := r.gauss 5.0 1.0
  let val := max 2.0 (min 7.0 val)
  let val := (roundHalfEven (val * 10) : ℚ) / 10
  (val, { s with weekly_hours_completed := val }, r')

/-- The physiological-band invariant for a biomarker state: every metric
lies inside its fixed `[min, max]` band from `weekly_bounds`. -/
def inBands (s : BiomarkerState) : Prop :=
  (95.0 ≤ s.systolic_bp ∧ s.systolic_bp ≤ 170.0) ∧
  (55.0 ≤ s.diastolic_bp ∧ s.diastolic_bp ≤ 110.0) ∧
  (50.0 ≤ s.apob ∧ s.apob ≤ 200.0) ∧
  (40.0 ≤ s.ldl_c ∧ s.ldl_c ≤ 250.0) ∧
  (0.2 ≤ s.hs_crp ∧ s.hs_crp ≤ 10.0) ∧
  (4.8 ≤ s.hba1c ∧ s.hba1c ≤ 7.0) ∧
  (18.0 ≤ s.bmi ∧ s.bmi ≤ 35.0) ∧
  (20.0 ≤ s.hrv_ms ∧ s.hrv_ms ≤ 120.0) ∧
  (45.0 ≤ s.rhr_bpm ∧ s.rhr_bpm ≤ 90.0) ∧
  (4.0 ≤ s.sleep_hours ∧ s.sleep_hours ≤ 9.0)

instance inBands_decidable (s : BiomarkerState) : Decidable s.inBands := by
  unfold inBands; infer_instance

end BiomarkerState

-- ---------------------------------------------------------------------------
-- Simulated time (tz-aware datetimes relative to the start Monday)
-- ---------------------------------------------------------------------------

/-- A simulated local timestamp: `day` counts days since the simulation
start date (the default configuration starts on Monday 2025-01-06, so
`day % 7 = 0` means Monday and `4` means Friday), with wall-clock hour
and minute. -/
structure SimTime where
  day : ℕ
  hour : ℕ
  minute : ℕ
deriving DecidableEq, Repr

namespace SimTime

/-- Minutes since the start of the simulation; the sort key used when the
scheduler sorts events (`events.sort(key=lambda e: e.when)`). -/
def totalMinutes (t : SimTime) : ℕ := (t.day * 24 + t.hour) * 60 + t.minute

/-- Model of `datetime.weekday()` for a run starting on a Monday:
0 = Monday, 4 = Friday. -/
def weekday (t : SimTime) : ℕ := t.day % 7

/-- Model of `dt.replace(hour=h, minute=m)`. -/
def replaceTime (t : SimTime) (h m : ℕ) : SimTime := { t with hour := h, minute := m }

/-- Model of `dt + timedelta(days=d)`. -/
def addDays (t : SimTime) (d : ℕ) : SimTime := { t with day := t.day + d }

/-- Model of `generator.minutes_apart`: `ts + timedelta(minutes=m)`. -/
def minutes_apart (t : SimTime) (m : ℕ) : SimTime :=
  let tot := t.totalMinutes + m
  { day := tot / 1440, hour := tot % 1440 / 60, minute := tot % 60 }

/-- Hours elapsed from `t1` to `t2`, mirroring
`(msg.timestamp - last).total_seconds() / 3600.0`. -/
def deltaHours (t2 t1 : SimTime) : ℚ :=
  ((t2.totalMinutes : ℚ) - (t1.totalMinutes : ℚ)) / 60

end SimTime

-- ---------------------------------------------------------------------------
-- Content engine state (generator.py): context and the engine record
-- ---------------------------------------------------------------------------

/-- Evolving cross-week context (`generator.GenerationContext`). -/
structure GenerationContext where
  last_week_win : Bool := false
  cumulative_plan_hours : ℚ := 0.0
  exercise_phase : ℕ := 0
  last_openers : List (String × String) := []

/-- Enhancement configuration (`nlg.NLGConfig`). -/
structure NLGConfig where
  provider : String := "none"
  mode : String := "paraphrase"
  model : String := "llama3.1:8b"
  timeout_sec : ℕ := 6
  temperature : ℚ := 0.7
  top_p : ℚ := 0.95
  num_predict : ℕ := 160
  enable_cache : Bool := false

/-- The closed set of event and message kind tags (the source uses the
corresponding string literals, a fixed tag set): the scheduler's event
kinds plus the assistant acknowledgement kind `pa_ack` used only as a
message tag. -/
inductive EventKind where
  | weekly_report
  | exercise_update
  | medical_checkin
  | nutrition_update
  | travel_adaptation
  | diagnostics_schedule
  | diagnostics_results
  | member_curiosity
  | wearable_anomaly
  | pa_ack
deriving DecidableEq, Repr

/-- The mutable part of `generator.ContentEngine`: generation context,
week counter, optional enhancement configuration, the per-(sender, kind)
recent-emission map, and a cursor into the delegate-outcome stream (the
engine's view of the external enhancement service). -/
structure Engine where
  interventions : List Intervention := default_interventions
  ctx : GenerationContext := {}
  week_counter : ℕ := 0
  nlg : Option NLGConfig := none
  recent : List ((String × EventKind) × SimTime) := []
  oidx : ℕ := 0

/-- Model of `generator.Message`: timestamp, sender tag, body text, the
member-initiated flag and the metadata bag (which the source fills with
a `kind` tag and, for exercise updates, a `plan_change` flag). -/
structure Message where
  timestamp : SimTime
  sender : String
  text : String
  attachments : List String := []
  initiated_by_member : Bool := false
  metaKind : Option EventKind := none
  metaPlanChange : Bool := false
deriving DecidableEq, Repr

/-- Python dict update `m[k] = v` on an insertion-ordered association
list: replace the binding in place or append a new one. -/
def updRecent (m : List ((String × EventKind) × SimTime))
    (k : String × EventKind) (ts : SimTime) :
    List ((String × EventKind) × SimTime) :=
  match m with
  | [] => [(k, ts)]
  | kv :: rest => if kv.1 == k then (k, ts) :: rest else kv :: updRecent rest k ts

namespace Engine

/-- Model of `ContentEngine._emit` (generator.py 236-248): suppress a
near-duplicate message of the same (sender, kind) whose predecessor was
emitted strictly less than `window_hours` ago; otherwise emit it and
record its timestamp. -/
def _emit (e : Engine) (msg : Message) (kind : EventKind)
    (window_hours : ℚ) : List Message × Engine :=
  match List.lookup (msg.sender, kind) e.recent with
  | some last =>
    if SimTime.deltaHours msg.timestamp last < window_hours then ([], e)
    else ([msg],
      { e with recent := updRecent e.recent (msg.sender, kind) msg.timestamp })
  | none => ([msg],
      { e with recent := updRecent e.recent (msg.sender, kind) msg.timestamp })

end Engine

/-- The suppression windows (in simulated hours) each builder passes to
`_emit`, by message kind (generator.py call sites). -/
def configuredWindows : List (EventKind × ℚ) :=
  [ (.weekly_report, 4.0), (.exercise_update, 10.0), (.medical_checkin, 8.0)
  , (.nutrition_update, 12.0), (.travel_adaptation, 10.0)
  , (.diagnostics_schedule, 24.0), (.diagnostics_results, 24.0)
  , (.wearable_anomaly, 10.0), (.member_curiosity, 4.0), (.pa_ack, 8.0) ]

namespace Engine

/-- Model of `ContentEngine.begin_week` (generator.py 286-319): per
intervention, sample adherence and apply effects; travel penalty; noise;
clamp to bands; recompute the win flag.  Returns the adherence map, the
updated engine (new `last_week_win`), the updated state and rng. -/
def begin_week (e : Engine) (st : BiomarkerState) (travel busy : Bool)
    (r : Rng) : List (String × Bool) × Engine × BiomarkerState × Rng :=
  let weekly_hours := (e.interventions.map Intervention.time_cost_hours).sum
  let pa_support := true
  let folded : (List (String × Bool) × BiomarkerState) × Rng :=
    e.interventions.foldl
      (fun acc iv =>
        let p := weekly_adherence_probability iv.base_adherence travel
          pa_support busy e.ctx.last_week_win weekly_hours
        let br := acc.2.bernoulli p
        ((acc.1.1 ++ [(iv.name, br.1)],
          acc.1.2.apply_intervention_effects iv.effect_vector br.1), br.2))
      (([], st), r)
  let st1 := if travel then folded.1.2.apply_travel_penalty else folded.1.2
  let noised := st1.add_noise folded.2
  let st2 := noised.1.weekly_bounds
  let win_count : ℕ :=
    (if 40.0 < st2.hrv_ms then 1 else 0) +
    (if st2.apob < 105.0 then 1 else 0) +
    (if st2.systolic_bp < 134.0 then 1 else 0)
  (folded.1.1,
   { e with ctx := { e.ctx with last_week_win := if 2 ≤ win_count then true else false } },
   st2, noised.2)

end Engine

-- ---------------------------------------------------------------------------
-- String machinery: Python string/regex operations as structural scanners
-- ---------------------------------------------------------------------------

/-- Python regex `\s` over the ASCII range. -/
def pySpace (c : Char) : Bool :=
  c = ' ' ∨ c = '\t' ∨ c = '\n' ∨ c = '\x0d' ∨ c = '\x0b' ∨ c = '\x0c'

/-- Python regex `\w` over the ASCII range. -/
def wordChar (c : Char) : Bool :=
  ('a' ≤ c ∧ c ≤ 'z') ∨ ('A' ≤ c ∧ c ≤ 'Z') ∨ ('0' ≤ c ∧ c ≤ '9') ∨ c = '_'

/-- ASCII lower-casing of one character. -/
def lowerChar (c : Char) : Char :=
  if 'A' ≤ c ∧ c ≤ 'Z' then Char.ofNat (c.toNat + 32) else c

/-- ASCII upper-casing of one character. -/
def upperChar (c : Char) : Char :=
  if 'a' ≤ c ∧ c ≤ 'z' then Char.ofNat (c.toNat - 32) else c

/-- Model of Python `str.lstrip()`. -/
def lstrip (l : List Char) : List Char := l.dropWhile pySpace

/-- Model of Python `str.rstrip()`. -/
def rstrip (l : List Char) : List Char := (l.reverse.dropWhile pySpace).reverse

/-- Model of Python `str.strip()`. -/
def strip (l : List Char) : List Char := rstrip (lstrip l)

/-- Model of Python `str.strip(cs)` for an explicit character set. -/
def stripSet (cs : List Char) (l : List Char) : List Char :=
  ((l.dropWhile (· ∈ cs)).reverse.dropWhile (· ∈ cs)).reverse

/-- Left-to-right, non-overlapping replacement of the two-character
pattern `[a, b]` by the single character `c` (the shape of the source's
`re.sub` for literal two-character patterns such as `"?."`). -/
def replacePairBy (a b c : Char) : List Char → List Char
  | [] => []
  | [x] => [x]
  | x :: y :: rest =>
    if x = a ∧ y = b then c :: replacePairBy a b c rest
    else x :: replacePairBy a b c (y :: rest)

/-- Does the two-character pattern `[a, b]` occur anywhere? -/
def hasPair (a b : Char) : List Char → Bool
  | [] => false
  | [_] => false
  | x :: y :: rest => (x = a ∧ y = b) ∨ hasPair a b (y :: rest)

/-- Worker for `collapseRuns`; `inRun = true` while consuming the tail of
a run whose replacement has already been emitted. -/
def collapseAux (p : Char → Bool) (repl : Char) : Bool → List Char → List Char
  | true, [] => []
  | true, x :: rest =>
    if p x then collapseAux p repl true rest
    else x :: collapseAux p repl false rest
  | false, [] => []
  | false, [x] => [x]
  | false, x :: y :: rest =>
    if p x then
      if p y then repl :: collapseAux p repl true rest
      else x :: collapseAux p repl false (y :: rest)
    else x :: collapseAux p repl false (y :: rest)

/-- Replace every maximal run of two or more `p`-characters by the single
character `repl` (the shape of `re.sub` for `X{2,}` patterns). -/
def collapseRuns (p : Char → Bool) (repl : Char) (l : List Char) : List Char :=
  collapseAux p repl false l

/-- Do two adjacent `p`-characters occur anywhere? -/
def hasAdj (p : Char → Bool) : List Char → Bool
  | [] => false
  | [_] => false
  | x :: y :: rest => (p x ∧ p y) ∨ hasAdj p (y :: rest)

/-- Split off everything up to (excluding) the last `'\n'`: returns
`some (before, fromNl)` with `fromNl` starting at that newline, or `none`
when the list holds no newline. -/
def splitAtLastNl (l : List Char) : Option (List Char × List Char) :=
  match l with
  | [] => none
  | c :: rest =>
    match splitAtLastNl rest with
    | some (b, f) => some (c :: b, f)
    | none => if c = '\n' then some ([], c :: rest) else none

/-- Worker for `trailColonSemi` (the `(?m)[:;]\s*$` substitution): state
`none` scans normally; state `some (col, P)` records a pending colon or
semicolon followed so far by the whitespace run `P`.  The match is
resolved greedily exactly as the regex backtracks: the whole run when the
string ends, else up to the last newline of the run, else no match. -/
def tcsGo : Option (Char × List Char) → List Char → List Char
  | none, [] => []
  | none, x :: rest =>
    if x = ':' ∨ x = ';' then tcsGo (some (x, [])) rest
    else x :: tcsGo none rest
  | some (_, _), [] => ['.']
  | some (col, p), y :: rest =>
    if pySpace y then tcsGo (some (col, p ++ [y])) rest
    else
      let cont := if y = ':' ∨ y = ';' then tcsGo (some (y, [])) rest
        else y :: tcsGo none rest
      match splitAtLastNl p with
      | some pr => '.' :: (pr.2 ++ cont)
      | none => col :: (p ++ cont)

/-- Model of `re.sub(r"(?m)[:;]\s*$", ".", txt)`. -/
def trailColonSemi (l : List Char) : List Char := tcsGo none l

/-- Is the position right after a colon/semicolon match-free for
`[:;]\s*$`?  (The run to the right neither reaches the end of the string
nor contains a newline.) -/
def colonOkAt (rest : List Char) : Bool :=
  ¬(rest.dropWhile pySpace = [] ∨ '\n' ∈ rest.takeWhile pySpace)

/-- No position of the list matches `(?m)[:;]\s*$`. -/
def colonFree : List Char → Bool
  | [] => true
  | x :: rest =>
    (if x = ':' ∨ x = ';' then colonOkAt rest else true) && colonFree rest

/-- Case-insensitive (ASCII) prefix test. -/
def matchesCIAt : List Char → List Char → Bool
  | [], _ => true
  | _ :: _, [] => false
  | p :: ps, c :: cs => lowerChar c = lowerChar p ∧ matchesCIAt ps cs

/-- Is there a case-insensitive occurrence of `pat` here, followed by a
word boundary? -/
def phraseAt (pat l : List Char) : Bool :=
  matchesCIAt pat l &&
    (match (l.drop pat.length).head? with
     | none => true
     | some c => !wordChar c)

/-- Worker for `replacePhraseCI`: `skip` counts pattern characters still
to consume after a replacement was emitted. -/
def phraseAux (pat repl : List Char) : ℕ → List Char → List Char
  | Nat.succ k, _ :: rest => phraseAux pat repl k rest
  | Nat.succ _, [] => []
  | 0, [] => []
  | 0, c :: rest =>
    if phraseAt pat (c :: rest) then
      repl ++ phraseAux pat repl (pat.length - 1) rest
    else c :: phraseAux pat repl 0 rest

/-- Model of `re.sub(r"(?i)PAT\b", repl, txt)` for a literal phrase
`PAT` (as in the `put attention on` → `focus on` normalization). -/
def replacePhraseCI (pat repl l : List Char) : List Char :=
  phraseAux pat repl 0 l

/-- No case-insensitive occurrence of `pat` followed by a word boundary. -/
def phraseFree (pat : List Char) : List Char → Bool
  | [] => !phraseAt pat []
  | c :: rest => !phraseAt pat (c :: rest) && phraseFree pat rest

/-- Worker for `splitLines`: `afterCR` swallows the `\n` of a `\r\n`
pair whose line was already emitted at the `\r`. -/
def splitLinesAux (afterCR : Bool) (cur : List Char) :
    List Char → List (List Char)
  | [] => if cur.isEmpty then [] else [cur.reverse]
  | c :: rest =>
    if afterCR = true ∧ c = '\n' then splitLinesAux false [] rest
    else if c = '\n' ∨ c = '\x0b' ∨ c = '\x0c' then
      cur.reverse :: splitLinesAux false [] rest
    else if c = '\x0d' then cur.reverse :: splitLinesAux true [] rest
    else splitLinesAux false (c :: cur) rest

/-- Model of Python `str.splitlines()` over the separators the source can
encounter (`\n`, `\r`, `\r\n`, `\v`, `\f`); a trailing terminator yields
no empty final line. -/
def splitLines (l : List Char) : List (List Char) := splitLinesAux false [] l

/-- Model of `"\n".join(lines)`. -/
def joinNl (ls : List (List Char)) : List Char :=
  match ls with
  | [] => []
  | [x] => x
  | x :: y :: rest => x ++ '\n' :: joinNl (y :: rest)

/-- The `_cap` helper shared by the cleanup passes: capitalize the first
character of a line when, after leading whitespace, it is a lowercase
ASCII letter (`re.match(r"^(\s*)([a-z])", line)`). -/
def capLine (l : List Char) : List Char :=
  let pre := l.takeWhile pySpace
  match l.dropWhile pySpace with
  | c :: cs => if 'a' ≤ c ∧ c ≤ 'z' then pre ++ upperChar c :: cs else l
  | [] => l

/-- Worker for `allRuns`: replace every maximal run of `p`-characters
(length ≥ 1) by the single character `repl` (the shape of `re.sub` for
`X+` patterns). -/
def allRunsAux (p : Char → Bool) (repl : Char) : Bool → List Char → List Char
  | _, [] => []
  | true, c :: rest =>
    if p c then allRunsAux p repl true rest
    else c :: allRunsAux p repl false rest
  | false, c :: rest =>
    if p c then repl :: allRunsAux p repl true rest
    else c :: allRunsAux p repl false rest

/-- Replace every maximal `p`-run by `repl` (`re.sub(r"X+", repl)`). -/
def allRuns (p : Char → Bool) (repl : Char) (l : List Char) : List Char :=
  allRunsAux p repl false l

/-- Worker for `spaceBeforePunc`: pending whitespace accumulated in
reverse. -/
def sbpAux (pending : List Char) : List Char → List Char
  | [] => pending.reverse
  | c :: rest =>
    if pySpace c then sbpAux (c :: pending) rest
    else if (c = ',' ∨ c = '.' ∨ c = ';' ∨ c = '!' ∨ c = '?') ∧ pending ≠ [] then
      c :: sbpAux [] rest
    else pending.reverse ++ c :: sbpAux [] rest

/-- Model of `re.sub(r"\s+([,.;!?])", r"\1", t)`: drop whitespace runs
that immediately precede punctuation. -/
def spaceBeforePunc (l : List Char) : List Char := sbpAux [] l

/-- Model of `re.sub(r"([,;])([^\s])", r"\1 \2", t)`: ensure a space
after a comma or semicolon. -/
def mergePunc : List Char → List Char
  | [] => []
  | [x] => [x]
  | x :: y :: rest =>
    if (x = ',' ∨ x = ';') ∧ ¬pySpace y then x :: ' ' :: y :: mergePunc rest
    else x :: mergePunc (y :: rest)

/-- Model of `re.sub(r"([?!])\s*\.$", r"\1", out)` (anchored at the very
end of the string). -/
def endBangQDotLast (l : List Char) : List Char :=
  match l.reverse with
  | '.' :: rest =>
    let ws := rest.takeWhile pySpace
    let after := rest.drop ws.length
    match after.head? with
    | some c => if c = '?' ∨ c = '!' then after.reverse else l
    | none => l
  | _ => l

/-- Drop a trailing run of characters satisfying `p`
(`re.sub(r"[...]+$", "", s)`, which is the identity when the run is
empty). -/
def dropTrailingRun (p : Char → Bool) (l : List Char) : List Char :=
  (l.reverse.dropWhile p).reverse

/-- Model of Python `str.capitalize()`: first character uppercased, the
rest lowercased (ASCII). -/
def pyCapitalize (s : String) : String :=
  match s.data with
  | [] => s
  | c :: rest => ⟨upperChar c :: rest.map lowerChar⟩

/-- Python dict update on a string-keyed association list. -/
def updAssocS (m : List (String × String)) (k v : String) :
    List (String × String) :=
  match m with
  | [] => [(k, v)]
  | kv :: rest => if kv.1 = k then (k, v) :: rest else kv :: updAssocS rest k v

/-- Decimal rendering of a rational that is an exact multiple of
`1/10^maxDec`, trimming trailing zero digits but keeping at least one —
the shape of Python's float `repr` for the rounded metric values the
templates interpolate. -/
def fmtQ (x : ℚ) (maxDec : ℕ) : String :=
  let sign := if x < 0 then "-" else ""
  let y := |x|
  let scaled : ℕ := (y * (10 : ℚ) ^ maxDec).num.toNat
  let ip := scaled / 10 ^ maxDec
  let fp := scaled % 10 ^ maxDec
  let fracDigits :=
    (Nat.toDigits 10 fp).map id
  let padded : List Char :=
    List.replicate (maxDec - fracDigits.length) '0' ++ fracDigits
  let trimmed := dropTrailingRun (· = '0') padded
  let frac := if trimmed.isEmpty then "0" else ⟨trimmed⟩
  sign ++ toString ip ++ "." ++ frac

/-- Python `f"{x:.df}"` fixed-point rendering: round half-even to `d`
decimals, keep exactly `d` digits. -/
def fmtFixed (x : ℚ) (d : ℕ) : String :=
  let scaled := roundHalfEven (x * (10 : ℚ) ^ d)
  let sign := if scaled < 0 then "-" else ""
  let n := scaled.natAbs
  let ip := n / 10 ^ d
  let fp := n % 10 ^ d
  if d = 0 then sign ++ toString ip
  else
    let fracDigits := Nat.toDigits 10 fp
    let padded : List Char :=
      List.replicate (d - fracDigits.length) '0' ++ fracDigits
    sign ++ toString ip ++ "." ++ (⟨padded⟩ : String)

/-- Model of `ContentEngine._tidy` (generator.py 250-282): punctuation
normalization, whitespace collapse, trailing colon fix, phrase
normalization, per-line capitalization. -/
def tidy (s : List Char) : List Char :=
  if s.isEmpty then s
  else
    let t := strip s
    let t := replacePairBy '?' '.' '?' t
    let t := replacePairBy '!' '.' '!' t
    let t := collapseRuns (· = '.') '.' t
    let t := collapseRuns pySpace ' ' t
    let t := trailColonSemi t
    let t := replacePhraseCI "put attention on".data "focus on".data t
    let t := joinNl ((splitLines t).map capLine)
    strip t

/-- `ContentEngine._tidy` lifted to `String`. -/
def tidyStr (s : String) : String := ⟨tidy s.data⟩

-- ---------------------------------------------------------------------------
-- textstyle.py
-- ---------------------------------------------------------------------------

/-- Model of `textstyle.natural_list`. -/
def natural_list (items : List String) (conj : String) : String :=
  let items := (items.filter
      (fun i => i ≠ "" ∧ strip i.data ≠ [])).map (fun i => (⟨strip i.data⟩ : String))
  match items with
  | [] => ""
  | [x] => x
  | [x, y] => x ++ " " ++ conj ++ " " ++ y
  | _ =>
    String.intercalate ", " items.dropLast ++ ", " ++ conj ++ " " ++
      items.getLastD ""

/-- Candidate label phrases of `textstyle._trim_labely_bits`, in the
regex engine's backtracking order; the `watch[-\s]?outs` class is
expanded against the actual character present. -/
def labelCands (l : List Char) : List (List Char) :=
  let watchMid :=
    match (l.drop 5).head? with
    | some c =>
      if c = '-' ∨ pySpace c then
        ["watch".data ++ c :: "outs".data, "watchouts".data]
      else ["watchouts".data]
    | none => ["watchouts".data]
  [ "keeping an eye on".data ] ++ watchMid ++
  [ "flags".data, "risks".data, "risk".data, "plan".data, "next".data
  , "summary".data, "interpretation".data, "options".data
  , "on labs/vitals".data, "on symptoms".data ]

/-- Try the `_trim_labely_bits` pattern at the current position: a label
phrase (case-insensitive), optional whitespace, a colon, optional
whitespace.  Returns the matched phrase text and the total number of
characters consumed. -/
def tryLabel (l : List Char) : Option (List Char × ℕ) :=
  (labelCands l).foldl
    (fun acc cand =>
      match acc with
      | some r => some r
      | none =>
        if matchesCIAt cand l then
          let rest := l.drop cand.length
          let ws1 := rest.takeWhile pySpace
          let rest2 := rest.drop ws1.length
          match rest2.head? with
          | some ':' =>
            let ws2 := (rest2.drop 1).takeWhile pySpace
            some (l.take cand.length,
              cand.length + ws1.length + 1 + ws2.length)
          | _ => none
        else none)
    none

/-- Worker for `trim_labely_bits`: `skip` counts already-matched
characters still to consume; `prevWord` tracks the word-boundary
condition `\b` before the label. -/
def labelyAux : ℕ → Bool → List Char → List Char
  | Nat.succ k, _, c :: rest => labelyAux k (wordChar c) rest
  | Nat.succ _, _, [] => []
  | 0, _, [] => []
  | 0, prevWord, c :: rest =>
    if prevWord then c :: labelyAux 0 (wordChar c) rest
    else
      match tryLabel (c :: rest) with
      | some (phrase, consumed) =>
        phrase ++ ' ' :: labelyAux (consumed - 1) (wordChar c) rest
      | none => c :: labelyAux 0 (wordChar c) rest

/-- Model of `textstyle._trim_labely_bits`: rewrite `label: ` fragments
to `label `. -/
def trim_labely_bits (l : List Char) : List Char := labelyAux 0 false l

/-- Model of `textstyle.to_sentence`: strip decorative quoting, drop
label colons, collapse spaces, and guarantee exactly one terminal mark
without producing `?.` or `!.`. -/
def to_sentence (s : String) : String :=
  if s = "" then ""
  else
    let t := strip s.data
    let t := stripSet ['"', '\x27', '“', '”', '‘', '’', ' '] t
    let t := trim_labely_bits t
    let t := collapseRuns pySpace ' ' t
    let te :=
      match t.getLast? with
      | some c =>
        if c = '?' ∨ c = '!' ∨ c = '.' then (rstrip t.dropLast, c)
        else (t, '.')
      | none => (t, '.')
    let out := te.1 ++ [te.2]
    let out := replacePairBy '?' '.' '?' out
    let out := replacePairBy '!' '.' '!' out
    (⟨endBangQDotLast out⟩ : String)

/-- Model of `textstyle._normalize_action`: drop a leading `I ` and a
trailing period. -/
def normalize_action (a : String) : String :=
  let s := strip a.data
  let s :=
    match s with
    | c :: rest =>
      if lowerChar c = 'i' ∧ (rest.head?.map pySpace).getD false then
        rest.dropWhile pySpace
      else s
    | [] => s
  let r1 := rstrip s
  let s := if r1.getLast? = some '.' then rstrip r1.dropLast else s
  (⟨s⟩ : String)

/-- Model of `textstyle.map_actions`. -/
def map_actions (actions : List String) : String :=
  if actions.isEmpty then "No actions from me right now"
  else
    let bits := (actions.filter
      (fun a => a ≠ "" ∧ strip a.data ≠ [])).map normalize_action
    if bits.isEmpty then "No actions from me right now"
    else "I " ++ natural_list bits "and"

/-- Model of `textstyle._POS_TEMPLATES` (as functions of the `{wins}`
slot). -/
def pos_templates : List (String → String) :=
  [ fun w => "Good news—" ++ w
  , fun w => "Quick positive—" ++ w
  , fun w => "On the plus side—" ++ w
  , fun w => "Nice win—" ++ w ]

/-- Model of `textstyle._FLAG_TEMPLATES`. -/
def flag_templates : List (String → String) :=
  [ fun f => "Still watching " ++ f
  , fun f => "One thing to watch—" ++ f
  , fun f => "Worth flagging—" ++ f
  , fun f => "Still a risk—" ++ f ]

/-- Model of `textstyle._FOCUS_TEMPLATES`. -/
def focus_templates : List (String → String) :=
  [ fun fo => "This week let’s focus on " ++ fo
  , fun fo => "For this week, let’s target " ++ fo
  , fun fo => "Next week, keep attention on " ++ fo
  , fun fo => "Let’s prioritize " ++ fo ]

/-- Worker for `merge_short_lines` (buffer kept reversed). -/
def mslAux : List String → List String → List String → List String
  | buf, out, [] =>
    (if buf.isEmpty then out
     else String.intercalate " " buf.reverse :: out).reverse
  | buf, out, p :: rest =>
    if p.length < 28 then mslAux (p :: buf) out rest
    else if buf.isEmpty then mslAux buf (p :: out) rest
    else mslAux [] (p :: (String.intercalate " " buf.reverse :: out)) rest

/-- Model of `textstyle._merge_short_lines`. -/
def merge_short_lines (parts : List String) : List String := mslAux [] [] parts

/-- Model of `textstyle.weave_report`: 2-3 label-free lines from
wins/flags/focus. -/
def weave_report (wins flags focus : List String) (r : Rng) :
    List String × Rng :=
  let s1 :=
    if ¬wins.isEmpty then
      let w := natural_list wins "and"
      let t := r.choice pos_templates id
      ([to_sentence (t.1 w)], t.2)
    else ([to_sentence "No big wins this week"], r)
  let s2 :=
    if ¬flags.isEmpty then
      let f := natural_list flags "and"
      let t := s1.2.choice flag_templates id
      (s1.1 ++ [to_sentence (t.1 f)], t.2)
    else s1
  let s3 :=
    if ¬focus.isEmpty then
      let fo := natural_list focus "and"
      let t := s2.2.choice focus_templates id
      (s2.1 ++ [to_sentence (t.1 fo)], t.2)
    else s2
  (merge_short_lines s3.1, s3.2)

-- ---------------------------------------------------------------------------
-- content/templates.py
-- ---------------------------------------------------------------------------

/-- Model of `templates.GREET_CHANCE`. -/
def GREET_CHANCE : ℚ := 0.18

/-- Model of `templates.GREETS` (as functions of the `{name}` slot). -/
def greets : List (String → String) :=
  [ fun n => "Hi " ++ n ++ ","
  , fun n => "Hey " ++ n ++ ","
  , fun n => "Hello " ++ n ++ "," ]

/-- Model of `templates.CONFIRMS`. -/
def confirms : List String :=
  [ "okay to proceed?", "want me to lock that in?", "good to go?"
  , "sound okay?", "shall I confirm?" ]

/-- Model of `templates.OBS_LEADS`. -/
def obs_leads : List String :=
  [ "I noticed", "I\x27m seeing", "Looks like", "Your log shows", "Noticed"
  , "From this week," ]

/-- Model of `templates.TRY_LEADS`. -/
def try_leads : List String :=
  [ "Let\x27s try", "How about we", "Plan for this week:", "Let\x27s go with"
  , "Next up," ]

/-- Model of `templates.MED_SYMPTOM_LEADS`. -/
def med_symptom_leads : List String :=
  [ "I\x27m noting", "Noted", "From your update,", "On symptoms," ]

/-- Model of `templates.MED_NUMS_LEADS`. -/
def med_nums_leads : List String :=
  [ "Current numbers are", "Latest numbers:", "On labs/vitals:" ]

/-- Model of `templates.MED_PLAN_LEADS`. -/
def med_plan_leads : List String :=
  [ "Let\x27s stick with", "Plan:", "We\x27ll continue with", "No changes —" ]

/-- Model of `templates.TRAVEL_LEADS` (as functions of `{dest}`). -/
def travel_leads : List (String → String) :=
  [ fun d => "For " ++ d ++ ", the plan is"
  , fun d => "For " ++ d ++ ", let\x27s go with"
  , fun d => d ++ ": plan is" ]

/-- Model of `templates.RESULTS_LEADS`. -/
def results_leads : List String :=
  [ "Results are in —", "Got the results —", "Panel summary —" ]

/-- Model of `templates.INTERPRET_LEADS`. -/
def interpret_leads : List String :=
  [ "This means", "My read:", "In short," ]

/-- Model of `templates.OPTIONS_LEADS`. -/
def options_leads : List String :=
  [ "Options include", "We can go a few ways:", "We could", "Paths:" ]

/-- Model of `templates.WEAR_HYP_LEADS`. -/
def wear_hyp_leads : List String :=
  [ "Likely", "Probably", "My hunch is", "Signals point to" ]

/-- Model of `templates.WEAR_NEXT_LEADS`. -/
def wear_next_leads : List String :=
  [ "Let\x27s do", "Plan:", "Next:", "Try" ]

/-- Model of `templates._maybe_greet`: a greeting with probability
`GREET_CHANCE`, else the empty string. -/
def maybe_greet (name : String) (r : Rng) : String × Rng :=
  let x := r.rand
  if x.1 < GREET_CHANCE then
    let g := x.2.choice greets (fun _ => "")
    (g.1 name, g.2)
  else ("", x.2)

/-- Model of `templates._normalize_for_dupe` (and its identical copy in
nlg.py): lowercase, trim, strip the trailing punctuation run, squash
whitespace runs. -/
def normalize_for_dupe (line : String) : String :=
  let s := (strip line.data).map lowerChar
  let s := strip (dropTrailingRun
    (fun c => c = '.' ∨ c = '?' ∨ c = '!' ∨ c = '…') s)
  ⟨allRuns pySpace ' ' s⟩

/-- Worker for `dedupe_lines` (`seen` set and reversed output). -/
def dedupeAux : List String → List String → List String → List String
  | _, out, [] => out.reverse
  | seen, out, ln :: rest =>
    let key := normalize_for_dupe ln
    if key ≠ "" ∧ key ∉ seen then dedupeAux (key :: seen) (ln :: out) rest
    else dedupeAux seen out rest

/-- Model of `templates._dedupe_lines`: drop lines whose normalized form
already occurred (first occurrence wins). -/
def dedupe_lines (lines : List String) : List String := dedupeAux [] [] lines

/-- Model of `templates._tidy_text` (templates.py 134-160): punctuation
normalization, space fixes, trailing colon fix, per-line strip +
capitalize with blank lines dropped. -/
def tidy_text (s : String) : String :=
  if s = "" then s
  else
    let t := strip s.data
    let t := replacePairBy '?' '.' '?' t
    let t := replacePairBy '!' '.' '!' t
    let t := collapseRuns (· = '.') '.' t
    let t := collapseRuns pySpace ' ' t
    let t := spaceBeforePunc t
    let t := mergePunc t
    let t := trailColonSemi t
    let lines := ((splitLines t).filter (fun l => strip l ≠ [])).map
      (fun l => capLine (strip l))
    ⟨strip (joinNl lines)⟩

/-- Model of `templates._finalize`: drop blank lines, de-duplicate, then
tidy the joined block. -/
def finalize (lines : List String) : String :=
  let lines := lines.filter (fun ln => ln ≠ "" ∧ strip ln.data ≠ [])
  let lines := dedupe_lines lines
  tidy_text (String.intercalate "\n" lines)

/-- Model of `templates.weekly_report_text`. -/
def weekly_report_text (wins flags focus actions : List String)
    (name : String) (r : Rng) : String × Rng :=
  let g := maybe_greet name r
  let lines0 : List String := if g.1 ≠ "" then [g.1] else []
  let wr := weave_report wins flags focus g.2
  let lines1 := lines0 ++ wr.1
  let s2 :=
    if ¬actions.isEmpty then
      let human := map_actions actions
      let c := wr.2.choice confirms ""
      (lines1 ++ [to_sentence (human ++ " — " ++ c.1)], c.2)
    else (lines1 ++ ["Nothing needed from you right now."], wr.2)
  (finalize s2.1, s2.2)

/-- Model of `templates.exercise_update_text`. -/
def exercise_update_text (progress plan_change cues name : String)
    (r : Rng) : String × Rng :=
  let g := maybe_greet name r
  let lines0 : List String := if g.1 ≠ "" then [g.1] else []
  let c := g.2.choice ["Good to go?", "Sound okay?", "Comfortable with that?"] ""
  (finalize (lines0 ++
    [ to_sentence progress
    , to_sentence ("For the next block, " ++ plan_change)
    , to_sentence ("Keep an eye on " ++ cues)
    , c.1 ]), c.2)

/-- Model of `templates.medical_checkin_text`. -/
def medical_checkin_text (symptoms review plan name : String)
    (r : Rng) : String × Rng :=
  let g := maybe_greet name r
  let lines0 : List String := if g.1 ≠ "" then [g.1] else []
  let c1 := g.2.choice med_symptom_leads ""
  let c2 := c1.2.choice med_nums_leads ""
  let c3 := c2.2.choice med_plan_leads ""
  (finalize (lines0 ++
    [ to_sentence (c1.1 ++ " " ++ symptoms)
    , to_sentence (c2.1 ++ " " ++ review)
    , to_sentence (c3.1 ++ " " ++ plan) ]), c3.2)

/-- Model of `templates.nutrition_update_text`. -/
def nutrition_update_text (observation recommendation name : String)
    (r : Rng) : String × Rng :=
  let g := maybe_greet name r
  let lines0 : List String := if g.1 ≠ "" then [g.1] else []
  let c1 := g.2.choice obs_leads ""
  let c2 := c1.2.choice try_leads ""
  (finalize (lines0 ++
    [ to_sentence (c1.1 ++ " " ++ observation)
    , to_sentence (c2.1 ++ " " ++ recommendation) ]), c2.2)

/-- Model of `templates.travel_adaptation_text`. -/
def travel_adaptation_text (dest plan name : String) (r : Rng) :
    String × Rng :=
  let g := maybe_greet name r
  let lines0 : List String := if g.1 ≠ "" then [g.1] else []
  let c := g.2.choice travel_leads (fun _ => "")
  (finalize (lines0 ++ [to_sentence (c.1 dest ++ " " ++ plan)]), c.2)

/-- Model of `templates.diagnostics_schedule_text`. -/
def diagnostics_schedule_text (scope name : String) (r : Rng) :
    String × Rng :=
  let g := maybe_greet name r
  let lines0 : List String := if g.1 ≠ "" then [g.1] else []
  (finalize (lines0 ++
    [ to_sentence ("I’m booking this panel — " ++ scope)
    , "Fasting instructions are in your inbox." ]), g.2)

/-- Model of `templates.diagnostics_results_text`. -/
def diagnostics_results_text (summary interpretation : String)
    (options : List String) (name : String) (r : Rng) : String × Rng :=
  let g := maybe_greet name r
  let lines0 : List String := if g.1 ≠ "" then [g.1] else []
  let c1 := g.2.choice results_leads ""
  let c2 := c1.2.choice interpret_leads ""
  let lines1 := lines0 ++
    [ to_sentence (c1.1 ++ " " ++ summary)
    , to_sentence (c2.1 ++ " " ++ interpretation) ]
  let s2 :=
    if ¬options.isEmpty then
      let c3 := c2.2.choice options_leads ""
      (lines1 ++ [to_sentence (c3.1 ++ " " ++ natural_list options "or")], c3.2)
    else (lines1, c2.2)
  (finalize s2.1, s2.2)

/-- Model of `templates.wearable_anomaly_text`. -/
def wearable_anomaly_text (brief hypothesis next_step name : String)
    (r : Rng) : String × Rng :=
  let g := maybe_greet name r
  let lines0 : List String := if g.1 ≠ "" then [g.1] else []
  let c1 := g.2.choice wear_hyp_leads ""
  let c2 := c1.2.choice wear_next_leads ""
  (finalize (lines0 ++
    [ to_sentence brief
    , to_sentence (c1.1 ++ " " ++ hypothesis)
    , to_sentence (c2.1 ++ " " ++ next_step) ]), c2.2)

/-- Model of `templates.member_curiosity_text`: one of eight phrasings,
with a trailing multi-dot run collapsed. -/
def member_curiosity_text (topic ask : String) (r : Rng) : String × Rng :=
  let variants : List String :=
    [ "Quick one: " ++ ask ++ " (" ++ topic ++ ")."
    , "Saw something on " ++ topic ++ " — " ++ ask ++ "."
    , ask ++ " — re " ++ topic ++ "."
    , "Curious about " ++ topic ++ ". " ++ ask ++ "."
    , ask ++ " (" ++ topic ++ ")."
    , "Reading about " ++ topic ++ ". " ++ ask
    , "Any quick context on " ++ topic ++ "? " ++ ask
    , ask ++ " on " ++ topic ++ "?" ]
  let c := r.choice variants ""
  let t := strip c.1.data
  let t :=
    if 2 ≤ (t.reverse.takeWhile (· = '.')).length then
      dropTrailingRun (· = '.') t ++ ['.']
    else t
  ((⟨t⟩ : String), c.2)

-- ---------------------------------------------------------------------------
-- nlg.py: the text-enhancement delegate and its fallback contract
-- ---------------------------------------------------------------------------

/-- One call to the external enhancement service, as the environment
resolves it: a successful HTTP response body, a transport/timeout error
(which `_ollama_generate` catches and turns into the empty string), or
any other exception raised inside the `try` block of `enhance`. -/
inductive DelegateOutcome where
  | ok (response : String)
  | httpError
  | exn
deriving DecidableEq, Repr

/-- The external enhancement service across a run: the outcome of its
`i`-th invocation.  The response may be anything; the model is
deliberately more adversarial than a prompt-determined service. -/
def Oracle : Type := ℕ → DelegateOutcome

/-- Model of `nlg.ROLE_TONES`. -/
def role_tones : List (String × String) :=
  [ ("Ruby", "empathetic, proactive, logistics, confirmations; keeps friction low; hand-offs to specialists")
  , ("Dr. Warren", "authoritative, precise, plain-English clinical; short risks/benefits")
  , ("Advik", "analytical, data trends, short hypothesis + next action")
  , ("Carla", "practical nutrition, behavior change, short why")
  , ("Rachel", "direct coaching, form-first cues, regress/progress options")
  , ("Neel", "strategic, big-picture, ROI and milestones") ]

/-- Model of `nlg.STYLE_HINTS`. -/
def style_hints : List String :=
  [ "warm & brief", "to-the-point", "casual but clear", "executive and concise"
  , "friendly and practical", "matter-of-fact" ]

/-- Model of `nlg._is_member_role`. -/
def is_member_role (role : String) : Bool :=
  let r := (⟨(strip role.data).map lowerChar⟩ : String)
  r = "rohan" ∨ r = "member" ∨ r = "client" ∨ r = "user"

/-- Model of `nlg._few_shot_examples`: three style examples sampled from
the fixed pool of five. -/
def few_shot_examples (r : Rng) : String × Rng :=
  let ex : List String :=
    [ "- Morning HRV dipped a bit. Let’s keep dinner earlier and cut caffeine after lunch. I’ll check back Thursday."
    , "- I held your 7–7:30 gym slots and sent hotel swaps. Want me to lock those?"
    , "- Numbers are moving the right way, not at target yet. If you’re okay, we stay the course two more weeks."
    , "- Travel week ahead—pushed heavier sessions to non-flight days and left mobility on travel days."
    , "- Appreciate the update. I’ll loop Carla in for the menu and confirm with Sarah on timing." ]
  let (picked, r') := r.sample ex 3 ""
  (String.intercalate "\n" picked, r')

/-- The `- k: v` facts block shared by both prompt builders. -/
def factsLines (facts : List (String × String)) : String :=
  if facts.isEmpty then "-"
  else String.intercalate "\n" (facts.map (fun kv => "- " ++ kv.1 ++ ": " ++ kv.2))

/-- Model of `NLGEngine._prompt_paraphrase` (the full prompt string; the
oracle model does not read it, but the random draws it makes are kept in
order). -/
def prompt_paraphrase (role event header base_body : String)
    (facts : List (String × String)) (r : Rng) : String × Rng :=
  let tone := ((role_tones.lookup role).getD "concise and helpful")
  let sender_rule :=
    if is_member_role role then
      "- Sender is the MEMBER. Do NOT greet or address yourself by name. Write 1–2 short sentences max. Keep it direct.\n"
    else
      "- Sender is an ELYX TEAM MEMBER. You may greet with the member’s name ONLY if it feels natural; don’t greet every time. Prefer 0–1 sentence greeting, then content.\n"
  let (style_hint, r1) :=
    match facts.lookup "style_hint" with
    | some s => (s, r)
    | none => r.choice style_hints ""
  let avoid := (facts.lookup "avoid_opening_like").getD ""
  let avoid_line :=
    if avoid ≠ "" then "- Do not start with: “" ++ avoid ++ "”. Use a different opening.\n"
    else ""
  let (shots, r2) := few_shot_examples r1
  ("You are \x27" ++ role ++ "\x27 writing a short WhatsApp-style message for event \x27" ++
      event ++ "\x27.\n" ++
    "Style: " ++ tone ++ ". Adopt this nuance: " ++ style_hint ++ ".\n" ++
    sender_rule ++ avoid_line ++
    "- Keep it human and brief (2–4 short sentences). Avoid bullet points and labels.\n" ++
    "- Avoid colon-led or dash-led fragments (e.g., \x27Watch-outs:\x27, \x27Focus:\x27, \x27Panel summary —\x27). Use plain sentences.\n" ++
    "- Include hand-offs or confirmations only if natural.\n" ++
    "- Preserve ALL concrete facts and numbers; do not invent anything.\n" ++
    "- DO NOT include the header line \x27" ++ header ++ "\x27. Output BODY ONLY.\n" ++
    "- Vary openings; don’t always greet. If you greet, put it on its own line.\n" ++
    "- Do not repeat the same opening across lines; avoid starting two lines with the same 1–2 words.\n" ++
    "- If you find yourself repeating a point, drop the repeat.\n\n" ++
    "Examples (style only, do not copy facts or exact wording):\n" ++ shots ++ "\n\n" ++
    "Facts (source of truth):\n" ++ factsLines facts ++ "\n\n" ++
    "Original body to paraphrase:\n" ++ base_body ++ "\n\n" ++
    "Rewrite naturally now (BODY ONLY):", r2)

/-- Model of `NLGEngine._prompt_full`. -/
def prompt_full (role event header : String)
    (facts : List (String × String)) (r : Rng) : String × Rng :=
  let tone := ((role_tones.lookup role).getD "concise and helpful")
  let sender_rule :=
    if is_member_role role then
      "- Sender is the MEMBER. Do NOT greet or use the member’s name. Write 1–2 short sentences max; keep it direct.\n"
    else
      "- Sender is an ELYX TEAM MEMBER. You may greet with the member’s name ONLY if it feels natural; avoid greeting in every message. If you greet, put the greeting on its own line.\n"
  let (style_hint, r1) :=
    match facts.lookup "style_hint" with
    | some s => (s, r)
    | none => r.choice style_hints ""
  let avoid := (facts.lookup "avoid_opening_like").getD ""
  let avoid_line :=
    if avoid ≠ "" then "- Do not start with: “" ++ avoid ++ "”. Use a different opening.\n"
    else ""
  let (shots, r2) := few_shot_examples r1
  ("You are \x27" ++ role ++ "\x27 writing a WhatsApp-style message for \x27" ++ event ++ "\x27.\n" ++
    "Tone: " ++ tone ++ ". Adopt this nuance: " ++ style_hint ++ ".\n" ++
    sender_rule ++ avoid_line ++
    "- Output 2–4 short sentences. Use plain language; no bullet points, no labels.\n" ++
    "- Mention logistics/confirmations briefly if implied by facts.\n" ++
    "- Base the message ONLY on these facts. Do NOT invent or speculate.\n" ++
    "- DO NOT include the header \x27" ++ header ++ "\x27. Output BODY ONLY.\n" ++
    "- Do NOT repeat the same opening across lines; vary transitions.\n" ++
    "- If a thought would repeat, omit the repeat.\n\n" ++
    "Examples (style only, do not copy facts or exact wording):\n" ++ shots ++ "\n\n" ++
    "Facts (strict source of truth):\n" ++ factsLines facts ++ "\n\n" ++
    "Compose the BODY ONLY now:", r2)

/-- Model of `NLGEngine._ollama_generate`: jitter draws in source order,
then the HTTP call, whose outcome the environment decides.  A transport
or timeout error is caught locally and becomes the empty string; any
other exception escapes to `enhance`'s handler (`.error`). -/
def ollama_generate (cfg : NLGConfig) (oracle : Oracle) (oidx : ℕ)
    (r : Rng) : Except Unit String × Rng × ℕ :=
  let u1 := r.uniform (-0.15) 0.15
  let _t := max 0.2 (min 1.2 (cfg.temperature + u1.1))
  let u2 := u1.2.uniform (-0.03) 0.03
  let _top_p := max 0.5 (min 0.99 (cfg.top_p + u2.1))
  let n3 := u2.2.randint (-16) 24
  let _num_predict := max 96 (min 240 ((cfg.num_predict : ℤ) + n3.1))
  match oracle oidx with
  | .ok s => (.ok s, n3.2, oidx + 1)
  | .httpError => (.ok "", n3.2, oidx + 1)
  | .exn => (.error (), n3.2, oidx + 1)

/-- The type of the success-path post-processing
(`_sanitize` followed by `_finalize_message`): response text, role and
header in, polished text out, consuming random draws.  It enters the
model as a parameter: no claim in this development constrains the
success-path rewrites, only that every failure path bypasses them. -/
def PostProcess : Type := String → String → String → Rng → String × Rng

/-- A fixed reference environment for the delegate: used to express that
a disabled-enhancement run does not depend on the environment at all
(every environment gives the same run as this one). -/
def nullOracle : Oracle := fun _ => .exn

/-- A fixed reference post-processing function (see `nullOracle`). -/
def nullPost : PostProcess := fun b _ _ r => (b, r)

/-- Model of `NLGEngine.enhance` (nlg.py 227-265): disabled configuration
returns the draft unchanged; otherwise build the prompt, call the
delegate, and fall back to the draft on any exception or empty response.
The cache branch is never taken: every configuration `from_args` builds
keeps `enable_cache = False`.  The result is always `.ok` — the `except`
clause converts every delegate error into the draft. -/
def enhance (cfg : NLGConfig) (oracle : Oracle) (oidx : ℕ)
    (post : PostProcess) (role event header base_body : String)
    (facts : List (String × String)) (r : Rng) : String × Rng × ℕ :=
  if cfg.provider = "none" ∨ cfg.mode = "off" then (base_body, r, oidx)
  else
    let pr :=
      if cfg.mode = "paraphrase" then
        some (prompt_paraphrase role event header base_body facts r)
      else if cfg.mode = "full" then
        some (prompt_full role event header facts r)
      else none
    match pr with
    | none => (base_body, r, oidx)
    | some (_, r1) =>
      let (res, r2, oidx') := ollama_generate cfg oracle oidx r1
      match res with
      | .error _ => (base_body, r2, oidx')
      | .ok s =>
        let s' : String := ⟨strip s.data⟩
        if s' = "" then (base_body, r2, oidx')
        else
          let (t, r3) := post s' role header r2
          (t, r3, oidx')

/-- The `tag` field of `voices.VOICES` for each voice key. -/
def voiceTag (key : String) : String :=
  if key = "ruby" then "Ruby (Elyx Concierge)"
  else if key = "dr_warren" then "Dr. Warren (Elyx Medical)"
  else if key = "advik" then "Advik (Elyx Performance Scientist)"
  else if key = "carla" then "Carla (Elyx Nutrition)"
  else if key = "rachel" then "Rachel (Elyx PT)"
  else if key = "neel" then "Neel (Elyx Concierge Lead)"
  else if key = "pa" then "Sarah Tan (PA)"
  else "Rohan"

/-- `VOICES[role_key].tag.split(" (")[0]` — the plain role name the
generator hands to the delegate. -/
def voiceRole (key : String) : String :=
  if key = "ruby" then "Ruby"
  else if key = "dr_warren" then "Dr. Warren"
  else if key = "advik" then "Advik"
  else if key = "carla" then "Carla"
  else if key = "rachel" then "Rachel"
  else if key = "neel" then "Neel"
  else if key = "pa" then "Sarah Tan"
  else "Rohan"

namespace Engine

/-- Model of `ContentEngine._enhance` (generator.py 201-218): without a
configured delegate the draft is tidied directly; otherwise the recent
opener is attached as an "avoid" hint, the delegate runs with its
fallback contract, and the result is tidied. -/
def _enhance (e : Engine) (oracle : Oracle) (post : PostProcess)
    (role_key : String) (event header base_body : String)
    (facts : List (String × String)) (r : Rng) : String × Engine × Rng :=
  match e.nlg with
  | none => (tidyStr base_body, e, r)
  | some cfg =>
    let role := voiceRole role_key
    let avoid := ((e.ctx.last_openers.lookup role_key).getD "")
    let facts := if avoid ≠ "" then facts ++ [("avoid_opening_like", avoid)] else facts
    let (text, r', oidx') :=
      enhance cfg oracle e.oidx post role event header base_body facts r
    (tidyStr text, { e with oidx := oidx' }, r')

end Engine

-- ---------------------------------------------------------------------------
-- content/generator.py: snapshot, opener tracking, variation pools
-- ---------------------------------------------------------------------------

/-- Round a rational half-to-even at `d` decimals (Python `round(x, d)`
on the exact value). -/
def roundQd (x : ℚ) (d : ℕ) : ℚ :=
  (roundHalfEven (x * (10 : ℚ) ^ d) : ℚ) / (10 : ℚ) ^ d

/-- Model of `BiomarkerState.snapshot`: the rounded metric dictionary. -/
structure Snapshot where
  sbp : ℚ
  dbp : ℚ
  apob : ℚ
  ldl : ℚ
  hscrp : ℚ
  hba1c : ℚ
  bmi : ℚ
  hrv : ℚ
  rhr : ℚ
  sleep : ℚ

/-- Model of `BiomarkerState.snapshot` (state.py 90-103). -/
def BiomarkerState.snapshot (s : BiomarkerState) : Snapshot :=
  { sbp := roundQd s.systolic_bp 1
  , dbp := roundQd s.diastolic_bp 1
  , apob := roundQd s.apob 1
  , ldl := roundQd s.ldl_c 1
  , hscrp := roundQd s.hs_crp 2
  , hba1c := roundQd s.hba1c 2
  , bmi := roundQd s.bmi 1
  , hrv := roundQd s.hrv_ms 1
  , rhr := roundQd s.rhr_bpm 1
  , sleep := roundQd s.sleep_hours 2 }

/-- Characters of the `[A-Za-z0-9']+` word class of `_extract_opener`. -/
def wordApos (c : Char) : Bool :=
  ('a' ≤ c ∧ c ≤ 'z') ∨ ('A' ≤ c ∧ c ≤ 'Z') ∨ ('0' ≤ c ∧ c ≤ '9') ∨ c = '\x27'

/-- Worker collecting maximal `wordApos`-runs (`re.findall`). -/
def wordRunsAux (cur : List Char) (acc : List (List Char)) :
    List Char → List (List Char)
  | [] => (if cur.isEmpty then acc else cur.reverse :: acc).reverse
  | c :: rest =>
    if wordApos c then wordRunsAux (c :: cur) acc rest
    else if cur.isEmpty then wordRunsAux [] acc rest
    else wordRunsAux [] (cur.reverse :: acc) rest

/-- Model of `re.findall(r"[A-Za-z0-9']+", s)`. -/
def wordRuns (l : List Char) : List (List Char) := wordRunsAux [] [] l

/-- Model of the greeting-line test
`re.match(r"(?i)^(hi|hello|hey)\s+\w+[,\-–]?$", raw)`. -/
def isGreetLine (l : List Char) : Bool :=
  ["hi", "hello", "hey"].any (fun g =>
    let gd := g.data
    matchesCIAt gd l &&
      (let rest := l.drop gd.length
       let ws := rest.takeWhile pySpace
       let rest2 := rest.drop ws.length
       let w := rest2.takeWhile wordChar
       let rest3 := rest2.drop w.length
       decide (1 ≤ ws.length) && decide (1 ≤ w.length) &&
         (match rest3 with
          | [] => true
          | [c] => c = ',' ∨ c = '-' ∨ c = '–'
          | _ => false)))

/-- Worker for `extract_opener`, over the stripped lines. -/
def extractOpenerGo : List (List Char) → String
  | [] => ""
  | L :: rest =>
    let raw := strip L
    if raw.isEmpty then extractOpenerGo rest
    else if isGreetLine raw then extractOpenerGo rest
    else
      let s := stripSet ['“', '”', '"', '\x27', ' '] (strip raw)
      let words := wordRuns (s.map lowerChar)
      if words.isEmpty then extractOpenerGo rest
      else String.intercalate " "
        ((words.take 4).map (fun w => (⟨w⟩ : String)))

/-- Model of `ContentEngine._extract_opener`: first 3-4 lowercased words
of the first non-greeting line. -/
def extract_opener (text : String) : String :=
  if text = "" then "" else extractOpenerGo (splitLines text.data)

namespace Engine

/-- Model of `ContentEngine._remember_opener`. -/
def _remember_opener (e : Engine) (role_key : String) (text : String) :
    Engine :=
  let op := extract_opener text
  if op ≠ "" then
    { e with ctx :=
      { e.ctx with last_openers := updAssocS e.ctx.last_openers role_key op } }
  else e

end Engine

/-- Model of `generator.WEARABLE_BRIEFS`. -/
def wearable_briefs : List String :=
  [ "Night HRV dipped and RHR ticked up vs last week"
  , "HRV was lower last night and resting HR ran higher"
  , "Slight drop in HRV with a bump in resting heart rate"
  , "Recovery looked a bit suppressed (lower HRV, higher RHR)" ]

/-- Model of `generator.WEARABLE_HYPO_TRAVEL`. -/
def wearable_hypo_travel : List String :=
  [ "late meal plus the time-zone shift"
  , "body clock mismatch from travel"
  , "sleep timing plus a heavier dinner on arrival" ]

/-- Model of `generator.WEARABLE_HYPO_HOME`. -/
def wearable_hypo_home : List String :=
  [ "late caffeine with a stressful day"
  , "under-recovery after back-to-back work days"
  , "short sleep and evening coffee" ]

/-- Model of `generator.WEARABLE_NEXTS`. -/
def wearable_nexts : List String :=
  [ "earlier dinner, 10-min wind-down, and morning light tomorrow"
  , "a morning walk in daylight and keep dinner earlier tonight"
  , "10 minutes of breathing before bed and morning light exposure" ]

/-- Model of `generator.NUTR_OBS_HOME`. -/
def nutr_obs_home : List String :=
  [ "coffee keeps drifting past 1 pm and dinners are running late"
  , "caffeine window is sliding and dinners have been later than ideal"
  , "afternoon coffee shows up, and dinner timing’s a bit late" ]

/-- Model of `generator.NUTR_RECO_HOME`. -/
def nutr_reco_home : List String :=
  [ "keep coffee to the morning, bring dinner earlier, and add two oily-fish meals this week"
  , "tighten caffeine to mornings, eat dinner earlier, and include 2 fish meals"
  , "morning-only coffee, earlier dinners, and hit two oily-fish meals this week" ]

/-- Model of `generator.NUTR_OBS_TRAVEL`. -/
def nutr_obs_travel : List String :=
  [ "restaurant meals look heavier on sodium and refined carbs"
  , "hotel food has been saltier with more refined carbs" ]

/-- Model of `generator.NUTR_RECO_TRAVEL`. -/
def nutr_reco_travel : List String :=
  [ "ask for low-sodium prep, choose grilled fish + steamed greens, and skip late desserts"
  , "request lighter seasoning, pick grilled proteins with greens, and avoid late desserts" ]

/-- Model of `generator.FOCUS_CORE`. -/
def focus_core : List String :=
  [ "morning light and earlier caffeine cutoff"
  , "Zone-2 plus mobility consistency" ]

/-- Model of `generator.FOCUS_EXTRAS`. -/
def focus_extras : List String :=
  [ "earlier dinner on work-heavy days"
  , "a 10-minute wind-down before bed"
  , "hydration + electrolytes on travel days" ]

/-- Model of `generator.RUBY_ACTIONS`. -/
def ruby_actions : List String :=
  [ "blocked your workout slots"
  , "sent the updated menu brief to your home cook"
  , "looped Sarah to confirm timings"
  , "nudged the gym to hold a squat rack slot" ]

/-- Model of `generator.CUES_POOL`. -/
def cues_pool : List String :=
  [ "neutral spine and controlled eccentrics"
  , "brace before you move; slow eccentrics"
  , "tall posture, ribs down, smooth tempo" ]

/-- Model of `generator.CONFIRM_VARIANTS`. -/
def confirm_variants : List String :=
  [ "okay to proceed?", "want me to lock that in?", "good to go?", "sound okay?" ]

/-- Model of `ContentEngine._style_hint` (the generator's own copy of the
six hints). -/
def gen_style_hint (r : Rng) : String × Rng :=
  r.choice
    [ "warm & brief", "to-the-point", "casual but clear"
    , "executive and concise", "friendly and practical", "matter-of-fact" ] ""

/-- Python `str(bool)`. -/
def pyStr (b : Bool) : String := if b then "True" else "False"

namespace Engine

/-- Model of `ContentEngine.weekly_report` (generator.py 323-386). -/
def weekly_report (e : Engine) (oracle : Oracle) (post : PostProcess)
    (when : SimTime) (st : BiomarkerState) (r : Rng) :
    List Message × Engine × BiomarkerState × Rng :=
  let snap := st.snapshot
  let wins : List String :=
    (if snap.apob < 100 then ["ApoB trending down (" ++ fmtQ snap.apob 1 ++ ")"] else []) ++
    (if 42 < snap.hrv then ["HRV improved (" ++ fmtQ snap.hrv 1 ++ " ms)"] else []) ++
    (if 6.5 ≤ snap.sleep then ["Sleep avg " ++ fmtQ snap.sleep 2 ++ " h"] else [])
  let flags : List String :=
    (if 130 ≤ snap.sbp ∨ 85 ≤ snap.dbp then
      ["BP still elevated (" ++ fmtQ snap.sbp 1 ++ "/" ++ fmtQ snap.dbp 1 ++ ")"] else []) ++
    (if 1.5 ≤ snap.hscrp then ["hsCRP " ++ fmtQ snap.hscrp 2] else [])
  let sf := r.sample focus_extras 1 ""
  let focus := focus_core ++ sf.1
  let sa := sf.2.sample ruby_actions 2 ""
  let actions := sa.1
  let xr := sa.2.rand
  let aa :=
    if xr.1 < 0.35 then
      let c := xr.2.choice (ruby_actions.filter (fun a => a ∉ actions)) ""
      (actions ++ [c.1], c.2)
    else (actions, xr.2)
  let actions := aa.1
  let sh := st.sample_weekly_hours aa.2
  let hours_done := sh.1
  let st := sh.2.1
  let hours_target := st.weekly_hours_committed
  let bb := weekly_report_text wins flags focus actions "Rohan" sh.2.2
  let xh := bb.2.rand
  let base_body :=
    if xh.1 < 0.35 then
      bb.1 ++ "\n" ++
        ("You logged ~" ++ fmtQ hours_done 1 ++ "h this week; target is " ++
          fmtQ hours_target 1 ++ "h. Let’s aim for ≥" ++ fmtQ hours_target 1 ++
          "h next week.")
    else bb.1
  let shi := gen_style_hint xh.2
  let facts : List (String × String) :=
    [ ("wins", String.intercalate "; " wins)
    , ("flags", String.intercalate "; " flags)
    , ("focus", String.intercalate "; " focus)
    , ("actions", String.intercalate "; " actions)
    , ("ApoB", fmtQ snap.apob 1)
    , ("BP", fmtQ snap.sbp 1 ++ "/" ++ fmtQ snap.dbp 1)
    , ("HRV", fmtQ snap.hrv 1)
    , ("Sleep(h)", fmtQ snap.sleep 2)
    , ("hours_completed", fmtQ hours_done 1)
    , ("hours_target", fmtQ hours_target 1)
    , ("style_hint", shi.1) ]
  let enh := e._enhance oracle post "ruby" "weekly_report" "Weekly report:"
    base_body facts shi.2
  let body := enh.1
  let msg : Message :=
    { timestamp := when, sender := voiceTag "ruby", text := body
    , metaKind := some .weekly_report }
  let em := enh.2.1._emit msg .weekly_report 4.0
  let e' := if ¬em.1.isEmpty then em.2._remember_opener "ruby" body else em.2
  (em.1, e', st, enh.2.2)

/-- Model of `ContentEngine.exercise_update` (generator.py 388-423). -/
def exercise_update (e : Engine) (oracle : Oracle) (post : PostProcess)
    (when : SimTime) (r : Rng) : List Message × Engine × Rng :=
  let e := { e with ctx := { e.ctx with exercise_phase := e.ctx.exercise_phase + 1 } }
  let phase := e.ctx.exercise_phase
  let xc := r.rand
  let change := xc.1 < 0.5
  let plan_change :=
    if change then
      "move to phase " ++ toString phase ++
        " with +1 set on compound lifts; keep RPE 7–8 and switch to suitcase carries during travel if your back tightens"
    else "keep the current progression for two more weeks and reassess"
  let cu := xc.2.choice cues_pool ""
  let bb := exercise_update_text
    ("Phase " ++ toString (phase - 1) ++ " went smoothly; no acute pain")
    plan_change cu.1 "Rohan" cu.2
  let shi := gen_style_hint bb.2
  let facts : List (String × String) :=
    [ ("phase", toString phase), ("RPE", "7–8"), ("plan_change", plan_change)
    , ("cues", cu.1), ("style_hint", shi.1) ]
  let enh := e._enhance oracle post "rachel" "exercise_update"
    "Exercise update:" bb.1 facts shi.2
  let body := enh.1
  let msg : Message :=
    { timestamp := when, sender := voiceTag "rachel", text := body
    , metaKind := some .exercise_update }
  let em := enh.2.1._emit msg .exercise_update 10.0
  let e' := if ¬em.1.isEmpty then em.2._remember_opener "rachel" body else em.2
  let msgs :=
    if change then em.1.map (fun m => { m with metaPlanChange := true })
    else em.1
  (msgs, e', enh.2.2)

/-- Model of `ContentEngine.medical_checkin` (generator.py 425-451). -/
def medical_checkin (e : Engine) (oracle : Oracle) (post : PostProcess)
    (when : SimTime) (st : BiomarkerState) (r : Rng) :
    List Message × Engine × Rng :=
  let pv := r.choice
    [ "stay the course for now; review at the next panel; hydrate and keep sodium balanced"
    , "continue the current plan; we’ll review at the next panel; keep hydration and sodium steady"
    , "no medication changes yet; revisit at the next panel; maintain hydration and sodium balance" ] ""
  let review := "BP " ++ fmtFixed st.systolic_bp 0 ++ "/" ++ fmtFixed st.diastolic_bp 0 ++
    ", ApoB " ++ fmtFixed st.apob 0 ++ ", hsCRP " ++ fmtFixed st.hs_crp 2
  let bb := medical_checkin_text
    "occasional lightheadedness on long meetings; sleep latency a bit better"
    review pv.1 "Rohan" pv.2
  let shi := gen_style_hint bb.2
  let facts : List (String × String) :=
    [ ("symptoms", "lightheadedness improving; better sleep latency")
    , ("review", fmtFixed st.systolic_bp 0 ++ "/" ++ fmtFixed st.diastolic_bp 0 ++
        ", ApoB " ++ fmtFixed st.apob 0 ++ ", hsCRP " ++ fmtFixed st.hs_crp 2)
    , ("ApoB", fmtFixed st.apob 0)
    , ("hsCRP", fmtFixed st.hs_crp 2)
    , ("style_hint", shi.1) ]
  let enh := e._enhance oracle post "dr_warren" "medical_checkin"
    "Medical check-in:" bb.1 facts shi.2
  let body := enh.1
  let msg : Message :=
    { timestamp := when, sender := voiceTag "dr_warren", text := body
    , metaKind := some .medical_checkin }
  let em := enh.2.1._emit msg .medical_checkin 8.0
  let e' := if ¬em.1.isEmpty then em.2._remember_opener "dr_warren" body else em.2
  (em.1, e', enh.2.2)

/-- Model of `ContentEngine.nutrition_update` (generator.py 453-473). -/
def nutrition_update (e : Engine) (oracle : Oracle) (post : PostProcess)
    (when : SimTime) (traveling : Bool) (r : Rng) :
    List Message × Engine × Rng :=
  let ob := if traveling then r.choice nutr_obs_travel ""
    else r.choice nutr_obs_home ""
  let rc := if traveling then ob.2.choice nutr_reco_travel ""
    else ob.2.choice nutr_reco_home ""
  let bb := nutrition_update_text ob.1 rc.1 "Rohan" rc.2
  let shi := gen_style_hint bb.2
  let facts : List (String × String) :=
    [ ("observation", ob.1), ("recommendation", rc.1)
    , ("traveling", pyStr traveling), ("style_hint", shi.1) ]
  let enh := e._enhance oracle post "carla" "nutrition_update"
    "Nutrition update:" bb.1 facts shi.2
  let body := enh.1
  let msg : Message :=
    { timestamp := when, sender := voiceTag "carla", text := body
    , metaKind := some .nutrition_update }
  let em := enh.2.1._emit msg .nutrition_update 12.0
  let e' := if ¬em.1.isEmpty then em.2._remember_opener "carla" body else em.2
  (em.1, e', enh.2.2)

/-- Model of `ContentEngine.travel_adaptation` (generator.py 475-493). -/
def travel_adaptation (e : Engine) (oracle : Oracle) (post : PostProcess)
    (when : SimTime) (dest : String) (r : Rng) :
    List Message × Engine × Rng :=
  let plan := "on flight day, shift meal timing; get 10–15 min of morning light on arrival; use hotel-gym swaps (DB rows, goblet squats, carries); hydrate with electrolytes"
  let cf := r.choice confirm_variants ""
  let bb := travel_adaptation_text dest plan "Rohan" cf.2
  let base_body := bb.1 ++ "\n" ++ pyCapitalize cf.1
  let shi := gen_style_hint bb.2
  let facts : List (String × String) :=
    [ ("destination", dest), ("plan", plan), ("style_hint", shi.1) ]
  let enh := e._enhance oracle post "ruby" "travel_adaptation"
    "Travel adaptation" base_body facts shi.2
  let body := enh.1
  let msg : Message :=
    { timestamp := when, sender := voiceTag "ruby", text := body
    , metaKind := some .travel_adaptation }
  let em := enh.2.1._emit msg .travel_adaptation 10.0
  let e' := if ¬em.1.isEmpty then em.2._remember_opener "ruby" body else em.2
  (em.1, e', enh.2.2)

/-- Model of `ContentEngine.diagnostics_schedule` (generator.py 495-510). -/
def diagnostics_schedule (e : Engine) (oracle : Oracle) (post : PostProcess)
    (when : SimTime) (r : Rng) : List Message × Engine × Rng :=
  let scope := "OGTT+insulin, ApoB/ApoA, Lp(a), FBC, LFT/KFT, hsCRP/ESR, thyroid panel, hormones, micronutrients (incl. Omega-3), urinalysis, ECG/Echo/CIMT as indicated, DEXA"
  let bb := diagnostics_schedule_text scope "Rohan" r
  let shi := gen_style_hint bb.2
  let facts : List (String × String) :=
    [ ("scope", scope), ("style_hint", shi.1) ]
  let enh := e._enhance oracle post "ruby" "diagnostics_schedule"
    "Ordering your diagnostic panel" bb.1 facts shi.2
  let body := enh.1
  let msg : Message :=
    { timestamp := when, sender := voiceTag "ruby", text := body
    , metaKind := some .diagnostics_schedule }
  let em := enh.2.1._emit msg .diagnostics_schedule 24.0
  let e' := if ¬em.1.isEmpty then em.2._remember_opener "ruby" body else em.2
  (em.1, e', enh.2.2)

/-- Model of `ContentEngine.diagnostics_results` (generator.py 512-537). -/
def diagnostics_results (e : Engine) (oracle : Oracle) (post : PostProcess)
    (when : SimTime) (st : BiomarkerState) (r : Rng) :
    List Message × Engine × Rng :=
  let snap := st.snapshot
  let summary := "ApoB " ++ fmtQ snap.apob 1 ++ ", LDL " ++ fmtQ snap.ldl 1 ++
    ", BP " ++ fmtQ snap.sbp 1 ++ "/" ++ fmtQ snap.dbp 1 ++
    ", hsCRP " ++ fmtQ snap.hscrp 2
  let interpretation := "improving but still above targets for ApoB and BP; inflammation modestly better"
  let options : List String :=
    [ "continue lifestyle emphasis for 12 weeks"
    , "discuss lipid-lowering therapy (pros/cons)"
    , "tighten sodium and earlier caffeine cutoff" ]
  let bb := diagnostics_results_text summary interpretation options "Rohan" r
  let shi := gen_style_hint bb.2
  let facts : List (String × String) :=
    [ ("summary", summary), ("interpretation", interpretation)
    , ("options", String.intercalate "; " options)
    , ("ApoB", fmtQ snap.apob 1), ("LDL", fmtQ snap.ldl 1)
    , ("BP", fmtQ snap.sbp 1 ++ "/" ++ fmtQ snap.dbp 1)
    , ("hsCRP", fmtQ snap.hscrp 2), ("style_hint", shi.1) ]
  let enh := e._enhance oracle post "dr_warren" "diagnostics_results"
    "Diagnostics results" bb.1 facts shi.2
  let body := enh.1
  let msg : Message :=
    { timestamp := when, sender := voiceTag "dr_warren", text := body
    , metaKind := some .diagnostics_results }
  let em := enh.2.1._emit msg .diagnostics_results 24.0
  let e' := if ¬em.1.isEmpty then em.2._remember_opener "dr_warren" body else em.2
  (em.1, e', enh.2.2)

/-- Model of `ContentEngine.wearable_anomaly` (generator.py 539-558). -/
def wearable_anomaly (e : Engine) (oracle : Oracle) (post : PostProcess)
    (when : SimTime) (st : BiomarkerState) (travel : Bool) (r : Rng) :
    List Message × Engine × Rng :=
  let br := r.choice wearable_briefs ""
  let hy := if travel then br.2.choice wearable_hypo_travel ""
    else br.2.choice wearable_hypo_home ""
  let nx := hy.2.choice wearable_nexts ""
  let bb := wearable_anomaly_text br.1 hy.1 nx.1 "Rohan" nx.2
  let shi := gen_style_hint bb.2
  let facts : List (String × String) :=
    [ ("brief", br.1), ("hypothesis", hy.1), ("next", nx.1)
    , ("HRV", fmtFixed st.hrv_ms 1), ("RHR", fmtFixed st.rhr_bpm 1)
    , ("travel", pyStr travel), ("style_hint", shi.1) ]
  let enh := e._enhance oracle post "advik" "wearable_anomaly"
    "Wearable note" bb.1 facts shi.2
  let body := enh.1
  let msg : Message :=
    { timestamp := when, sender := voiceTag "advik", text := body
    , metaKind := some .wearable_anomaly }
  let em := enh.2.1._emit msg .wearable_anomaly 10.0
  let e' := if ¬em.1.isEmpty then em.2._remember_opener "advik" body else em.2
  (em.1, e', enh.2.2)

/-- Model of `ContentEngine.member_curiosity` (generator.py 560-580). -/
def member_curiosity (e : Engine) (when : SimTime) (r : Rng) :
    List Message × Engine × Rng :=
  let topics : List String :=
    [ "ApoB vs LDL-C", "Creatine and cognition", "Jet lag meal timing"
    , "Strength training and BP", "Fish oil purity standards"
    , "Zone-2 heart-rate zones", "Mediterranean vs DASH diet" ]
  let asks : List String :=
    [ "Quick take?", "Worth trying?", "How does this apply to me?"
    , "Any risk I should know?", "What’s the simplest version?" ]
  let tp := r.choice topics ""
  let ak := tp.2.choice asks ""
  let tx := member_curiosity_text tp.1 ak.1 ak.2
  let text := tidyStr tx.1
  let msg : Message :=
    { timestamp := when, sender := voiceTag "member", text := text
    , initiated_by_member := true, metaKind := some .member_curiosity }
  let em := e._emit msg .member_curiosity 4.0
  (em.1, em.2, tx.2)

/-- Model of `ContentEngine.pa_scheduling_ack` (generator.py 582-598). -/
def pa_scheduling_ack (e : Engine) (when : SimTime) (r : Rng) :
    List Message × Engine × Rng :=
  let options : List String :=
    [ "Calendar invites sent; lab location shared."
    , "Diagnostics confirmed; QR code is in your email."
    , "Travel holds added; workout times adjusted in your calendar."
    , "Reminder set and shared with Sarah."
    , "All set on my side. Shout if you need anything changed." ]
  let tx := r.choice options ""
  let msg : Message :=
    { timestamp := when, sender := voiceTag "pa", text := tx.1
    , metaKind := some .pa_ack }
  let em := e._emit msg .pa_ack 8.0
  (em.1, em.2, tx.2)

end Engine

-- ---------------------------------------------------------------------------
-- calendar2.py and scheduler.py
-- ---------------------------------------------------------------------------

/-- Model of `SimClock.datetime_for`: Monday of week `week` (1-based)
plus `day_offset` days, at the given wall-clock hour/minute. -/
def datetime_for (week day_offset hour minute : ℕ) : SimTime :=
  { day := 7 * (week - 1) + day_offset, hour := hour, minute := minute }

/-- Model of `scheduler.Event`: kind, 1-based week, timestamp, and the
optional metadata bag (only ever `{"dest": destination}`). -/
structure Event where
  kind : EventKind
  week : ℕ
  when : SimTime
  dest : Option String := none
deriving DecidableEq, Repr

/-- Model of `calendar2.TravelPlan`. -/
structure TravelPlan where
  travel_weeks : List ℕ
  destinations : List String

/-- Model of `TravelPlan.destination_for_week`. -/
def TravelPlan.destination_for_week (tp : TravelPlan) (week : ℕ) : Option String :=
  if week ∈ tp.travel_weeks then
    some (tp.destinations.getD (tp.travel_weeks.indexOf week % tp.destinations.length) "")
  else none

/-- Model of `calendar2.build_travel_plan`: weeks 4, 8, 12, ... up to
`weeks`, with the fixed destination cycle. -/
def build_travel_plan (weeks : ℕ) : TravelPlan :=
  { travel_weeks := List.range' 4 (weeks / 4) 4
  , destinations := ["United Kingdom", "United States", "South Korea", "Jakarta"] }

/-- Model of `scheduler._random_time`: same date, hour drawn from
`[hour_low, hour_high]`, minute drawn from the 5-minute grid. -/
def randomTime (base : SimTime) (hour_low hour_high : ℕ) (r : Rng) :
    SimTime × Rng :=
  let h := r.randint hour_low hour_high
  let m := h.2.choice [0, 5, 10, 15, 20, 25, 30, 35, 40, 45, 50, 55] 0
  (base.replaceTime h.1.toNat m.1, m.2)

/-- The member-curiosity inner loop of `build_events`: `n` curiosity
events, each on a random day 0-6 at a random time. -/
def curiosityEvents (w : ℕ) (monday : SimTime) (n : ℕ) (r : Rng) :
    List Event × Rng :=
  match n with
  | 0 => ([], r)
  | Nat.succ n' =>
    let d := r.randint 0 6
    let t := randomTime (monday.addDays d.1.toNat) 8 20 d.2
    let rest := curiosityEvents w monday n' t.2
    ({ kind := .member_curiosity, week := w, when := t.1 } :: rest.1, rest.2)

/-- Weekly report beat of `build_events` (every week, Ruby). -/
def weekReportEv (w : ℕ) (monday : SimTime) (r : Rng) : List Event × Rng :=
  let t := randomTime monday 8 20 r
  ([{ kind := .weekly_report, week := w, when := t.1 }], t.2)

/-- Biweekly exercise-update beat of `build_events`. -/
def exerciseEv (w : ℕ) (monday : SimTime) (r : Rng) : List Event × Rng :=
  if w % 2 = 0 then
    let t := randomTime monday 8 20 r
    ([{ kind := .exercise_update, week := w, when := t.1 }], t.2)
  else ([], r)

/-- Fortnightly medical check-in beat of `build_events`. -/
def medicalEv (w : ℕ) (monday : SimTime) (r : Rng) : List Event × Rng :=
  if w % 2 = 0 then
    let t := randomTime monday 10 14 r
    ([{ kind := .medical_checkin, week := w, when := t.1 }], t.2)
  else ([], r)

/-- Roughly-monthly nutrition-update beat of `build_events`. -/
def nutritionEv (w : ℕ) (monday : SimTime) (r : Rng) : List Event × Rng :=
  if w ∈ ([3, 7, 11, 15, 19, 23, 27, 31] : List ℕ) then
    let t := randomTime monday 11 16 r
    ([{ kind := .nutrition_update, week := w, when := t.1 }], t.2)
  else ([], r)

/-- Travel-week adaptation beat of `build_events`. -/
def travelEv (tp : TravelPlan) (w : ℕ) (monday : SimTime) (r : Rng) :
    List Event × Rng :=
  match tp.destination_for_week w with
  | some d =>
    let t := randomTime monday 8 20 r
    ([{ kind := .travel_adaptation, week := w, when := t.1, dest := some d }], t.2)
  | none => ([], r)

/-- Diagnostics beat of `build_events`: on the hardcoded weeks
`[4, 16, 28]`, a schedule event early in the week (hour 8-11) and a
results event on the week's Friday (hour 13-18). -/
def diagEv (w : ℕ) (monday : SimTime) (r : Rng) : List Event × Rng :=
  if w ∈ ([4, 16, 28] : List ℕ) then
    let t := randomTime monday 8 11 r
    let friday := monday.addDays 4
    let t2 := randomTime friday 13 18 t.2
    ([{ kind := .diagnostics_schedule, week := w, when := t.1 },
      { kind := .diagnostics_results, week := w, when := t2.1 }], t2.2)
  else ([], r)

/-- Member-curiosity beat of `build_events`: a random count 3-7 of
curiosity events. -/
def curiosityBlock (w : ℕ) (monday : SimTime) (r : Rng) : List Event × Rng :=
  let c := r.randint 3 7
  curiosityEvents w monday c.1.toNat c.2

/-- Wearable-anomaly beat of `build_events`: probability one half, random
day 1-6. -/
def wearableEv (w : ℕ) (monday : SimTime) (r : Rng) : List Event × Rng :=
  let x := r.rand
  if x.1 < 0.5 then
    let d := x.2.randint 1 6
    let t := randomTime (monday.addDays d.1.toNat) 8 20 d.2
    ([{ kind := .wearable_anomaly, week := w, when := t.1 }], t.2)
  else ([], x.2)

/-- One week's slice of `scheduler.build_events` (the body of the
`for w in range(1, total_weeks + 1)` loop), in source order. -/
def weekEvents (tp : TravelPlan) (w : ℕ) (r : Rng) : List Event × Rng :=
  let monday := datetime_for w 0 9 0
  let s1 := weekReportEv w monday r
  let s2 := exerciseEv w monday s1.2
  let s3 := medicalEv w monday s2.2
  let s4 := nutritionEv w monday s3.2
  let s5 := travelEv tp w monday s4.2
  let s6 := diagEv w monday s5.2
  let s7 := curiosityBlock w monday s6.2
  let s8 := wearableEv w monday s7.2
  (s1.1 ++ s2.1 ++ s3.1 ++ s4.1 ++ s5.1 ++ s6.1 ++ s7.1 ++ s8.1, s8.2)

/-- Stable insertion of an event into a list sorted by timestamp; a new
event goes after existing events with an equal timestamp, matching the
stability of Python's `list.sort`. -/
def insertByWhen (e : Event) : List Event → List Event
  | [] => [e]
  | x :: xs =>
    if x.when.totalMinutes ≤ e.when.totalMinutes then x :: insertByWhen e xs
    else e :: x :: xs

/-- Stable sort by timestamp (`events.sort(key=lambda e: e.when)`). -/
def sortByWhen (l : List Event) : List Event :=
  l.foldl (fun acc e => insertByWhen e acc) []

/-- Model of `scheduler.build_events`: all weekly slices pooled, then
sorted by timestamp. -/
def build_events (tp : TravelPlan) (total_weeks : ℕ) (r : Rng) :
    List Event × Rng :=
  let folded := (List.range' 1 total_weeks).foldl
    (fun acc w =>
      let we := weekEvents tp w acc.2
      (acc.1 ++ we.1, we.2))
    ([], r)
  (sortByWhen folded.1, folded.2)

-- ---------------------------------------------------------------------------
-- run.py: the driver loop
-- ---------------------------------------------------------------------------

/-- Model of `NLGEngine.from_args`: provider `none` or mode `off` yields
no delegate at all. -/
def nlg_from_args (provider mode model : String) : Option NLGConfig :=
  if provider = "none" ∨ mode = "off" then none
  else some { provider := provider, mode := mode, model := model }

/-- The driver's threaded state: engine, biomarker state, rng, the
accumulated message list, the `current_week` bookkeeping variable, and
an observation log of the weeks at which `begin_week` fired (one entry
per call). -/
structure SimSt where
  engine : Engine
  bio : BiomarkerState
  rng : Rng
  messages : List Message := []
  current_week : ℕ := 1
  beginWeekLog : List ℕ := []

/-- Model of one iteration of the event loop of `run.main`
(run.py 91-137): update `current_week`, fire `begin_week` whenever the
event falls on a Monday with hour 8-12, then route the event to its
builder (member-curiosity events additionally invoke all three expert
builders at +15 minutes and append one randomly chosen result;
diagnostics-schedule events append the assistant acknowledgement at
+20 minutes). -/
def processEvent (tp : TravelPlan) (oracle : Oracle) (post : PostProcess)
    (s : SimSt) (ev : Event) : SimSt :=
  let cw := if ev.week ≠ s.current_week then ev.week else s.current_week
  let traveling := (tp.destination_for_week ev.week).isSome
  let busy := ev.week % 6 = 0
  let s1 :=
    if ev.when.weekday = 0 ∧ 8 ≤ ev.when.hour ∧ ev.when.hour ≤ 12 then
      let bw := s.engine.begin_week s.bio traveling busy s.rng
      { s with engine := bw.2.1, bio := bw.2.2.1, rng := bw.2.2.2
             , beginWeekLog := s.beginWeekLog ++ [ev.week] }
    else s
  let s1 := { s1 with current_week := cw }
  match ev.kind with
  | .weekly_report =>
    let b := s1.engine.weekly_report oracle post ev.when s1.bio s1.rng
    { s1 with messages := s1.messages ++ b.1, engine := b.2.1
            , bio := b.2.2.1, rng := b.2.2.2 }
  | .exercise_update =>
    let b := s1.engine.exercise_update oracle post ev.when s1.rng
    { s1 with messages := s1.messages ++ b.1, engine := b.2.1, rng := b.2.2 }
  | .medical_checkin =>
    let b := s1.engine.medical_checkin oracle post ev.when s1.bio s1.rng
    { s1 with messages := s1.messages ++ b.1, engine := b.2.1, rng := b.2.2 }
  | .nutrition_update =>
    let b := s1.engine.nutrition_update oracle post ev.when traveling s1.rng
    { s1 with messages := s1.messages ++ b.1, engine := b.2.1, rng := b.2.2 }
  | .travel_adaptation =>
    let b := s1.engine.travel_adaptation oracle post ev.when
      (ev.dest.getD "") s1.rng
    { s1 with messages := s1.messages ++ b.1, engine := b.2.1, rng := b.2.2 }
  | .diagnostics_schedule =>
    let b := s1.engine.diagnostics_schedule oracle post ev.when s1.rng
    let pa := b.2.1.pa_scheduling_ack (ev.when.minutes_apart 20) b.2.2
    { s1 with messages := s1.messages ++ b.1 ++ pa.1, engine := pa.2.1
            , rng := pa.2.2 }
  | .diagnostics_results =>
    let b := s1.engine.diagnostics_results oracle post ev.when s1.bio s1.rng
    { s1 with messages := s1.messages ++ b.1, engine := b.2.1, rng := b.2.2 }
  | .wearable_anomaly =>
    let b := s1.engine.wearable_anomaly oracle post ev.when s1.bio traveling
      s1.rng
    { s1 with messages := s1.messages ++ b.1, engine := b.2.1, rng := b.2.2 }
  | .member_curiosity =>
    let m0 := s1.engine.member_curiosity ev.when s1.rng
    let reply_time := ev.when.minutes_apart 15
    let b1 := m0.2.1.nutrition_update oracle post reply_time traveling m0.2.2
    let b2 := b1.2.1.medical_checkin oracle post reply_time s1.bio b1.2.2
    let b3 := b2.2.1.wearable_anomaly oracle post reply_time s1.bio traveling
      b2.2.2
    let ch := b3.2.2.choice [b1.1, b2.1, b3.1] []
    { s1 with messages := s1.messages ++ m0.1 ++ ch.1, engine := b3.2.1
            , rng := ch.2 }
  | .pa_ack => s1

/-- The event loop of `run.main`: fold `processEvent` over the sorted
events. -/
def runDriver (tp : TravelPlan) (oracle : Oracle) (post : PostProcess)
    (events : List Event) (init : SimSt) : SimSt :=
  events.foldl (processEvent tp oracle post) init

/-- Model of `run.main` (run.py 67-137, up to the message list): build
the travel plan and events from the seeded rng, then drive the loop.
`nlgCfg` is `NLGEngine.from_args`'s result; `oracle`/`post` model the
external enhancement service. -/
def runPipeline (weeks : ℕ) (nlgCfg : Option NLGConfig) (oracle : Oracle)
    (post : PostProcess) (r : Rng) : SimSt :=
  let tp := build_travel_plan weeks
  let ev := build_events tp weeks r
  runDriver tp oracle post ev.1
    { engine := { nlg := nlgCfg }, bio := {}, rng := ev.2 }

-- ---------------------------------------------------------------------------
-- validators.py
-- ---------------------------------------------------------------------------

/-- Model of `validators._diagnostic_weeks`: week 4, then every 12 weeks
up to `total_weeks`. -/
def diagnostic_weeks_from (w total_weeks : ℕ) : List ℕ :=
  if w ≤ total_weeks then w :: diagnostic_weeks_from (w + 12) total_weeks else []
termination_by total_weeks + 1 - w
decreasing_by omega

/-- Model of `validators._diagnostic_weeks` (entry point, starting at
week 4). -/
def diagnostic_weeks (total_weeks : ℕ) : List ℕ := diagnostic_weeks_from 4 total_weeks

/-- Model of `validators._expected_diagnostics_count`. -/
def expected_diagnostics_count (total_weeks : ℕ) : ℕ :=
  (diagnostic_weeks total_weeks).length

/-- Number of events of a given kind in a list (the tally the validator
takes over `meta["kind"]`). -/
def countKind (k : EventKind) (l : List Event) : ℕ :=
  l.countP (fun e => e.kind == k)

end Elyx

-- ===========================================================================
-- Theorems
-- ===========================================================================

namespace Elyx

theorem clampQ_mem (lo hi x : ℚ) (h : lo ≤ hi) :
    lo ≤ clampQ lo hi x ∧ clampQ lo hi x ≤ hi := by
  constructor
  · exact le_min (le_max_right x lo) h
  · exact min_le_right _ _

theorem weekly_bounds_inBands (s : BiomarkerState) :
    (BiomarkerState.weekly_bounds s).inBands := by
  refine ⟨clampQ_mem _ _ _ (by norm_num), clampQ_mem _ _ _ (by norm_num),
    clampQ_mem _ _ _ (by norm_num), clampQ_mem _ _ _ (by norm_num),
    clampQ_mem _ _ _ (by norm_num), clampQ_mem _ _ _ (by norm_num),
    clampQ_mem _ _ _ (by norm_num), clampQ_mem _ _ _ (by norm_num),
    clampQ_mem _ _ _ (by norm_num), clampQ_mem _ _ _ (by norm_num)⟩

/-- C3: after every weekly update (`ContentEngine.begin_week`) — for any
incoming biomarker state, any intervention catalog, any adherence
outcomes, travel or not, busy or not, and any noise draws — every metric
lies within its fixed physiological band: systolic BP in [95,170],
diastolic BP in [55,110], ApoB in [50,200], LDL-C in [40,250], hsCRP in
[0.2,10], HbA1c in [4.8,7.0], BMI in [18,35], HRV in [20,120], resting
HR in [45,90], sleep hours in [4,9]. -/
theorem begin_week_metrics_in_bands (e : Engine) (st : BiomarkerState)
    (travel busy : Bool) (r : Rng) :
    ((Engine.begin_week e st travel busy r).2.2.1).inBands := by
  simp only [Engine.begin_week]
  exact weekly_bounds_inBands _

theorem countKind_append (k : EventKind) (l₁ l₂ : List Event) :
    countKind k (l₁ ++ l₂) = countKind k l₁ + countKind k l₂ := by
  simp [countKind, List.countP_append]

theorem countKind_curiosity (k : EventKind) (hk : k ≠ .member_curiosity) :
    ∀ (w : ℕ) (monday : SimTime) (n : ℕ) (r : Rng),
      countKind k (curiosityEvents w monday n r).1 = 0 := by
  intro w monday n
  induction n with
  | zero => intro r; simp [curiosityEvents, countKind]
  | succ n ih =>
    intro r
    have hpk : (EventKind.member_curiosity == k) = false := by
      simp only [beq_eq_false_iff_ne, ne_eq]
      exact fun h => hk h.symm
    simp only [curiosityEvents, countKind, List.countP_cons] at ih ⊢
    simp [hpk, ih]

theorem insertByWhen_perm (e : Event) (l : List Event) :
    (insertByWhen e l).Perm (e :: l) := by
  induction l with
  | nil => simp [insertByWhen]
  | cons x xs ih =>
    simp only [insertByWhen]
    split_ifs with h
    · exact (ih.cons x).trans (List.Perm.swap e x xs)
    · exact List.Perm.refl _

theorem sortByWhen_perm (l : List Event) : (sortByWhen l).Perm l := by
  suffices h : ∀ (l acc : List Event),
      (l.foldl (fun acc e => insertByWhen e acc) acc).Perm (acc ++ l) by
    simpa using h l []
  intro l
  induction l with
  | nil => intro acc; simp
  | cons e l ih =>
    intro acc
    refine (ih (insertByWhen e acc)).trans ?_
    refine ((insertByWhen_perm e acc).append_right l).trans ?_
    exact List.perm_middle.symm

theorem countKind_weekReportEv (k : EventKind) (hk : k ≠ .weekly_report)
    (w : ℕ) (monday : SimTime) (r : Rng) :
    countKind k (weekReportEv w monday r).1 = 0 := by
  have : (EventKind.weekly_report == k) = false := by
    simp only [beq_eq_false_iff_ne, ne_eq]; exact fun h => hk h.symm
  simp [weekReportEv, countKind, this]

theorem countKind_exerciseEv (k : EventKind) (hk : k ≠ .exercise_update)
    (w : ℕ) (monday : SimTime) (r : Rng) :
    countKind k (exerciseEv w monday r).1 = 0 := by
  have : (EventKind.exercise_update == k) = false := by
    simp only [beq_eq_false_iff_ne, ne_eq]; exact fun h => hk h.symm
  simp only [exerciseEv]
  split_ifs <;> simp [countKind, this]

theorem countKind_medicalEv (k : EventKind) (hk : k ≠ .medical_checkin)
    (w : ℕ) (monday : SimTime) (r : Rng) :
    countKind k (medicalEv w monday r).1 = 0 := by
  have : (EventKind.medical_checkin == k) = false := by
    simp only [beq_eq_false_iff_ne, ne_eq]; exact fun h => hk h.symm
  simp only [medicalEv]
  split_ifs <;> simp [countKind, this]

theorem countKind_nutritionEv (k : EventKind) (hk : k ≠ .nutrition_update)
    (w : ℕ) (monday : SimTime) (r : Rng) :
    countKind k (nutritionEv w monday r).1 = 0 := by
  have : (EventKind.nutrition_update == k) = false := by
    simp only [beq_eq_false_iff_ne, ne_eq]; exact fun h => hk h.symm
  simp only [nutritionEv]
  split_ifs <;> simp [countKind, this]

theorem countKind_travelEv (k : EventKind) (hk : k ≠ .travel_adaptation)
    (tp : TravelPlan) (w : ℕ) (monday : SimTime) (r : Rng) :
    countKind k (travelEv tp w monday r).1 = 0 := by
  have : (EventKind.travel_adaptation == k) = false := by
    simp only [beq_eq_false_iff_ne, ne_eq]; exact fun h => hk h.symm
  simp only [travelEv]
  rcases tp.destination_for_week w with _ | d <;> simp [countKind, this]

theorem countKind_curiosityBlock (k : EventKind) (hk : k ≠ .member_curiosity)
    (w : ℕ) (monday : SimTime) (r : Rng) :
    countKind k (curiosityBlock w monday r).1 = 0 := by
  simp only [curiosityBlock]
  exact countKind_curiosity k hk w monday _ _

theorem countKind_wearableEv (k : EventKind) (hk : k ≠ .wearable_anomaly)
    (w : ℕ) (monday : SimTime) (r : Rng) :
    countKind k (wearableEv w monday r).1 = 0 := by
  have : (EventKind.wearable_anomaly == k) = false := by
    simp only [beq_eq_false_iff_ne, ne_eq]; exact fun h => hk h.symm
  simp only [wearableEv]
  split_ifs <;> simp [countKind, this]

theorem countKind_diagEv_results (w : ℕ) (monday : SimTime) (r : Rng) :
    countKind .diagnostics_results (diagEv w monday r).1 =
      if w ∈ ([4, 16, 28] : List ℕ) then 1 else 0 := by
  simp only [diagEv]
  split_ifs <;> simp [countKind]

theorem weekEvents_count_results (tp : TravelPlan) (w : ℕ) (r : Rng) :
    countKind .diagnostics_results (weekEvents tp w r).1 =
      if w ∈ ([4, 16, 28] : List ℕ) then 1 else 0 := by
  simp only [weekEvents, countKind_append]
  rw [countKind_weekReportEv _ (by simp), countKind_exerciseEv _ (by simp),
    countKind_medicalEv _ (by simp), countKind_nutritionEv _ (by simp),
    countKind_travelEv _ (by simp), countKind_curiosityBlock _ (by simp),
    countKind_wearableEv _ (by simp), countKind_diagEv_results]
  omega

theorem count_results_fold (tp : TravelPlan) :
    ∀ (ws : List ℕ) (acc : List Event) (r : Rng),
      countKind .diagnostics_results
        ((ws.foldl
          (fun acc w =>
            let we := weekEvents tp w acc.2
            (acc.1 ++ we.1, we.2))
          (acc, r)).1) =
      countKind .diagnostics_results acc +
        (ws.map (fun w => if w ∈ ([4, 16, 28] : List ℕ) then 1 else 0)).sum := by
  intro ws
  induction ws with
  | nil => intro acc r; simp
  | cons w ws ih =>
    intro acc r
    simp only [List.foldl_cons]
    rw [ih]
    simp only [countKind_append, weekEvents_count_results, List.map_cons,
      List.sum_cons]
    omega

theorem build_events_count_results (tp : TravelPlan) (total : ℕ) (r : Rng) :
    countKind .diagnostics_results (build_events tp total r).1 =
      ((List.range' 1 total).map
        (fun w => if w ∈ ([4, 16, 28] : List ℕ) then 1 else 0)).sum := by
  simp only [build_events, countKind]
  rw [List.Perm.countP_eq _ (sortByWhen_perm _)]
  have h := count_results_fold tp (List.range' 1 total) [] r
  simpa [countKind] using h

/-- C1 (code bug at `total_weeks = 40`): `build_events` hardcodes the
diagnostic weeks `[4, 16, 28]` (scheduler.py line 48), so for a 40-week
run it emits only 3 diagnostics-results events, while the cadence the
spec states — and the validator `_diagnostic_weeks` enforces with a hard
assertion — expects one for each of the weeks `[4, 16, 28, 40]`. -/
theorem diagnostics_missing_week_forty (r : Rng) :
    countKind .diagnostics_results
        (build_events (build_travel_plan 40) 40 r).1 = 3 ∧
    expected_diagnostics_count 40 = 4 ∧
    diagnostic_weeks 40 = [4, 16, 28, 40] := by
  refine ⟨?_, ?_, ?_⟩
  · rw [build_events_count_results]
    decide
  · simp [expected_diagnostics_count, diagnostic_weeks, diagnostic_weeks_from]
  · simp [diagnostic_weeks, diagnostic_weeks_from]

theorem dw_idem (p : Char → Bool) (l : List Char) :
    (l.dropWhile p).dropWhile p = l.dropWhile p := by
  induction l with
  | nil => simp
  | cons a l ih =>
    by_cases h : p a
    · simp [List.dropWhile_cons, h, ih]
    · simp [List.dropWhile_cons, h]

theorem dw_head_not (p : Char → Bool) (l : List Char) (c : Char)
    (h : (l.dropWhile p).head? = some c) : p c = false := by
  induction l with
  | nil => simp at h
  | cons a l ih =>
    by_cases hp : p a
    · rw [List.dropWhile_cons, if_pos hp] at h; exact ih h
    · rw [List.dropWhile_cons, if_neg hp] at h
      simp at h
      subst h
      simpa using hp

theorem pfx_head (l₁ l₂ : List Char) (h : l₁ <+: l₂) (hne : l₁ ≠ []) :
    l₁.head? = l₂.head? := by
  obtain ⟨t, rfl⟩ := h
  cases l₁ with
  | nil => exact absurd rfl hne
  | cons a l => simp

theorem rstrip_isPre (l : List Char) : rstrip l <+: l := by
  have h : l.reverse.dropWhile pySpace <:+ l.reverse := List.dropWhile_suffix _
  have := List.reverse_prefix.mpr (by simpa using h)
  simpa [rstrip] using this

theorem lstrip_eq_self_of_head (l : List Char)
    (h : ∀ c, l.head? = some c → pySpace c = false) : lstrip l = l := by
  cases l with
  | nil => rfl
  | cons a l =>
    have := h a (by simp)
    simp [lstrip, List.dropWhile_cons, this]

theorem lstrip_idem (l : List Char) : lstrip (lstrip l) = lstrip l :=
  dw_idem pySpace l

theorem rstrip_idem (l : List Char) : rstrip (rstrip l) = rstrip l := by
  simp [rstrip, dw_idem]

theorem lstrip_rstrip_lstrip (l : List Char) :
    lstrip (rstrip (lstrip l)) = rstrip (lstrip l) := by
  rcases hx : rstrip (lstrip l) with _ | ⟨c, rest⟩
  · rfl
  · apply lstrip_eq_self_of_head
    intro d hd
    have hpre := rstrip_isPre (lstrip l)
    rw [hx] at hpre
    have hh := pfx_head _ _ hpre (by simp)
    rw [hh] at hd
    simp only [lstrip] at hd
    exact dw_head_not pySpace l d hd

theorem strip_idem (l : List Char) : strip (strip l) = strip l := by
  simp only [strip]
  rw [lstrip_rstrip_lstrip, rstrip_idem]

theorem strip_last_not_space (l : List Char) (c : Char)
    (h : (strip l).getLast? = some c) : pySpace c = false := by
  simp only [strip, rstrip] at h
  rw [List.getLast?_reverse] at h
  exact dw_head_not pySpace _ c h

theorem replacePairBy_id (a b c : Char) (l : List Char)
    (h : hasPair a b l = false) : replacePairBy a b c l = l := by
  induction l with
  | nil => rfl
  | cons x rest ih =>
    cases rest with
    | nil => rfl
    | cons y rest2 =>
      simp only [hasPair, decide_eq_false_iff_not, not_or] at h
      simp only [replacePairBy]
      rw [if_neg h.1]
      rw [ih (by simpa using h.2)]

theorem collapseAux_id (p : Char → Bool) (repl : Char) (l : List Char)
    (h : hasAdj p l = false) : collapseAux p repl false l = l := by
  induction l with
  | nil => rfl
  | cons x rest ih =>
    cases rest with
    | nil => rfl
    | cons y rest2 =>
      simp only [hasAdj, decide_eq_false_iff_not, not_or] at h
      have hxy := h.1
      have h2 : hasAdj p (y :: rest2) = false := by simpa using h.2
      simp only [collapseAux]
      by_cases hx : p x
      · have hy : p y = false := by
          rcases Bool.eq_false_or_eq_true (p y) with h' | h'
          · exact absurd ⟨hx, h'⟩ hxy
          · exact h'
        rw [if_pos hx, if_neg (by simp [hy])]
        rw [ih h2]
      · rw [if_neg hx]
        rw [ih h2]

theorem splitAtLastNl_none (l : List Char) (h : '\n' ∉ l) :
    splitAtLastNl l = none := by
  induction l with
  | nil => rfl
  | cons c rest ih =>
    simp only [List.mem_cons, not_or] at h
    simp only [splitAtLastNl]
    rw [ih h.2]
    have : ¬c = '\n' := fun hc => h.1 hc.symm
    simp [this]

theorem pySpace_ne_colon (c : Char) (h : pySpace c = true) :
    ¬(c = ':' ∨ c = ';') := by
  simp only [pySpace] at h
  rcases (by simpa using h : c = ' ' ∨ c = '\t' ∨ c = '\n' ∨ c = '\x0d' ∨
      c = '\x0b' ∨ c = '\x0c') with h' | h' | h' | h' | h' | h' <;>
    subst h' <;> decide

theorem tcsGo_id_strong : ∀ (n : ℕ) (l : List Char), l.length ≤ n →
    (colonFree l = true → tcsGo none l = l) ∧
    (∀ (col : Char) (P : List Char), (∀ c ∈ P, pySpace c = true) →
      '\n' ∉ P → colonOkAt (P ++ l) = true →
      colonFree l = true → tcsGo (some (col, P)) l = col :: (P ++ l)) := by
  intro n
  induction n with
  | zero =>
    intro l hl
    have : l = [] := by
      cases l with
      | nil => rfl
      | cons a l => simp at hl
    subst this
    refine ⟨fun _ => rfl, ?_⟩
    intro col P hP hPn hok _
    exfalso
    simp only [colonOkAt] at hok
    have : P.dropWhile pySpace = [] := by
      rw [List.dropWhile_eq_nil_iff]
      intro c hc
      exact hP c hc
    simp [this] at hok
  | succ n ih =>
    intro l hl
    cases l with
    | nil => exact (ih [] (by simp)).imp (fun h => h) (fun h => h)
    | cons y rest =>
      have hrest : rest.length ≤ n := by simpa using hl
      constructor
      · intro hcf
        simp only [colonFree, Bool.and_eq_true] at hcf
        simp only [tcsGo]
        by_cases hy : y = ':' ∨ y = ';'
        · rw [if_pos hy]
          have hok : colonOkAt rest = true := by
            have := hcf.1
            rwa [if_pos hy] at this
          exact (ih rest hrest).2 y [] (by simp) (by simp) (by simpa using hok)
            hcf.2
        · rw [if_neg hy]
          rw [(ih rest hrest).1 hcf.2]
      · intro col P hP hPn hok hcf
        simp only [tcsGo]
        by_cases hy : pySpace y
        · rw [if_pos hy]
          have hyn : ¬y = '\n' := by
            intro hc
            subst hc
            simp only [colonOkAt, decide_eq_true_eq, not_or] at hok
            apply hok.2
            rw [List.takeWhile_append_of_pos (fun a ha => hP a ha)]
            simp [List.takeWhile_cons, pySpace]
          have h4 : ∀ c ∈ P ++ [y], pySpace c = true := by
            intro c hc
            rcases List.mem_append.mp hc with h | h
            · exact hP c h
            · simp at h
              subst h
              exact hy
          have h2 : '\n' ∉ P ++ [y] := by
            simp only [List.mem_append, List.mem_singleton, not_or]
            exact ⟨hPn, fun hc => hyn hc.symm⟩
          have h3 : colonOkAt ((P ++ [y]) ++ rest) = true := by
            simpa [List.append_assoc] using hok
          have h5 : colonFree rest = true := by
            simp only [colonFree, Bool.and_eq_true] at hcf
            exact hcf.2
          rw [(ih rest hrest).2 col (P ++ [y]) h4 h2 h3 h5]
          simp [List.append_assoc]
        · rw [if_neg hy]
          rw [splitAtLastNl_none P hPn]
          simp only [colonFree, Bool.and_eq_true] at hcf
          by_cases hyc : y = ':' ∨ y = ';'
          · rw [if_pos hyc]
            have hok2 : colonOkAt rest = true := by
              have := hcf.1
              rwa [if_pos hyc] at this
            rw [(ih rest hrest).2 y [] (by simp) (by simp)
              (by simpa using hok2) hcf.2]
            simp
          · rw [if_neg hyc]
            rw [(ih rest hrest).1 hcf.2]

theorem trailColonSemi_id (l : List Char) (h : colonFree l = true) :
    trailColonSemi l = l :=
  (tcsGo_id_strong l.length l le_rfl).1 h

theorem phraseAux_id (pat repl : List Char) (l : List Char)
    (h : phraseFree pat l = true) : phraseAux pat repl 0 l = l := by
  induction l with
  | nil => rfl
  | cons c rest ih =>
    simp only [phraseFree, Bool.and_eq_true, Bool.not_eq_true'] at h
    simp only [phraseAux]
    rw [if_neg (by simp [h.1])]
    rw [ih h.2]

theorem splitLinesAux_ne_nil (l : List Char) (hne : l ≠ []) :
    ∀ (cur : List Char), splitLinesAux false cur l ≠ [] := by
  induction l with
  | nil => exact absurd rfl hne
  | cons c rest ih =>
    intro cur
    simp only [splitLinesAux]
    rw [if_neg (by simp)]
    split_ifs with h1 h2
    · simp
    · simp
    · cases rest with
      | nil => simp [splitLinesAux]
      | cons c2 rest2 => exact ih (by simp) (c :: cur)

theorem joinNl_splitLinesAux (l : List Char)
    (hcr : ∀ c ∈ l, c ≠ '\x0d' ∧ c ≠ '\x0b' ∧ c ≠ '\x0c')
    (hlast : l.getLast? ≠ some '\n') :
    ∀ (cur : List Char),
      joinNl (splitLinesAux false cur l) = cur.reverse ++ l := by
  induction l with
  | nil =>
    intro cur
    cases cur with
    | nil => rfl
    | cons a cs => simp [splitLinesAux, joinNl]
  | cons c rest ih =>
    intro cur
    have hc := hcr c (by simp)
    have hcr2 : ∀ d ∈ rest, d ≠ '\x0d' ∧ d ≠ '\x0b' ∧ d ≠ '\x0c' :=
      fun d hd => hcr d (List.mem_cons_of_mem c hd)
    simp only [splitLinesAux]
    rw [if_neg (by simp)]
    by_cases h1 : c = '\n' ∨ c = '\x0b' ∨ c = '\x0c'
    · have hcn : c = '\n' := by
        rcases h1 with h | h | h
        · exact h
        · exact absurd h hc.2.1
        · exact absurd h hc.2.2
      subst hcn
      have hrest : rest ≠ [] := by
        intro h
        subst h
        simp at hlast
      have hlast2 : rest.getLast? ≠ some '\n' := by
        cases rest with
        | nil => exact absurd rfl hrest
        | cons d ds => rwa [List.getLast?_cons_cons] at hlast
      rw [if_pos h1]
      have hne := splitLinesAux_ne_nil rest hrest []
      rcases hx : splitLinesAux false [] rest with _ | ⟨x, xs⟩
      · exact absurd hx hne
      · have := ih hcr2 hlast2 []
        rw [hx] at this
        simp only [List.reverse_nil, List.nil_append] at this
        cases xs with
        | nil =>
          simp only [joinNl] at this
          simp [joinNl, this]
        | cons y ys =>
          simp only [joinNl] at this ⊢
          simp [this]
    · rw [if_neg h1, if_neg hc.1]
      have hlast2 : rest.getLast? ≠ some '\n' := by
        cases rest with
        | nil => simp
        | cons d ds => rwa [List.getLast?_cons_cons] at hlast
      rw [ih hcr2 hlast2 (c :: cur)]
      simp

theorem map_capLine_id (L : List (List Char))
    (h : ∀ ln ∈ L, capLine ln = ln) : L.map capLine = L := by
  induction L with
  | nil => rfl
  | cons x xs ih =>
    simp only [List.map_cons]
    rw [h x (by simp), ih (fun ln hln => h ln (List.mem_cons_of_mem x hln))]

theorem tidy_stripped (s : List Char) : strip (tidy s) = tidy s := by
  by_cases h : s.isEmpty
  · have : s = [] := List.isEmpty_iff.mp h
    subst this
    rfl
  · simp only [tidy, h, if_false, Bool.false_eq_true]
    exact strip_idem _

theorem tidy_fixed_point (t : List Char)
    (h0 : strip t = t)
    (h1 : hasPair '?' '.' t = false)
    (h2 : hasPair '!' '.' t = false)
    (h3 : hasAdj (· = '.') t = false)
    (h4 : hasAdj pySpace t = false)
    (h5 : colonFree t = true)
    (h6 : phraseFree "put attention on".data t = true)
    (h7 : ∀ c ∈ t, c ≠ '\x0d' ∧ c ≠ '\x0b' ∧ c ≠ '\x0c')
    (h8 : ∀ ln ∈ splitLines t, capLine ln = ln) :
    tidy t = t := by
  have hlast : t.getLast? ≠ some '\n' := by
    intro hl
    have hsp := strip_last_not_space t '\n' (by rw [h0]; exact hl)
    simp [pySpace] at hsp
  by_cases hemp : t.isEmpty
  · simp [tidy, hemp]
  · simp only [tidy, hemp, if_false, Bool.false_eq_true]
    rw [h0]
    rw [replacePairBy_id _ _ _ _ h1]
    rw [replacePairBy_id _ _ _ _ h2]
    simp only [collapseRuns]
    rw [collapseAux_id _ _ _ h3]
    rw [collapseAux_id _ _ _ h4]
    rw [trailColonSemi_id _ h5]
    simp only [replacePhraseCI]
    rw [phraseAux_id _ _ _ h6]
    rw [map_capLine_id _ h8]
    simp only [splitLines]
    rw [joinNl_splitLinesAux t h7 hlast []]
    simpa using h0

theorem lookup_updRecent_self (m : List ((String × EventKind) × SimTime))
    (k : String × EventKind) (ts : SimTime) :
    List.lookup k (updRecent m k ts) = some ts := by
  induction m with
  | nil => simp [updRecent, List.lookup]
  | cons kv rest ih =>
    simp only [updRecent]
    by_cases h : kv.1 == k
    · simp [h, List.lookup]
    · have hne : kv.1 ≠ k := by simpa using h
      have h' : (k == kv.1) = false :=
        beq_eq_false_iff_ne.mpr (fun he => hne he.symm)
      simp only [h, if_false, Bool.false_eq_true, List.lookup]
      simp [h', ih]

/-- C5: the (sender, kind) suppression gate `_emit` — with no recorded
prior message, or a prior message at least the window older, the message
is emitted as `[msg]` and its timestamp recorded; strictly inside the
window it is dropped (empty list) and the engine, hence the recorded
timestamp, is left unchanged.  Every configured window lies between 4
and 24 simulated hours, and calling the gate three times for the same
(sender, kind) — the second inside the window, the third past it —
yields non-empty, empty, non-empty. -/
theorem emit_suppression_spec :
    (∀ (e : Engine) (msg : Message) (k : EventKind) (W : ℚ),
      (List.lookup (msg.sender, k) e.recent = none →
        e._emit msg k W =
          ([msg],
           { e with recent := updRecent e.recent (msg.sender, k) msg.timestamp })) ∧
      (∀ last, List.lookup (msg.sender, k) e.recent = some last →
        (SimTime.deltaHours msg.timestamp last < W →
          e._emit msg k W = ([], e)) ∧
        (W ≤ SimTime.deltaHours msg.timestamp last →
          e._emit msg k W =
            ([msg],
             { e with recent := updRecent e.recent (msg.sender, k) msg.timestamp })))) ∧
    (∀ kw ∈ configuredWindows, 4 ≤ kw.2 ∧ kw.2 ≤ 24) ∧
    (∀ (e : Engine) (m₁ m₂ m₃ : Message) (k : EventKind) (W : ℚ),
      m₂.sender = m₁.sender → m₃.sender = m₁.sender →
      List.lookup (m₁.sender, k) e.recent = none →
      SimTime.deltaHours m₂.timestamp m₁.timestamp < W →
      W ≤ SimTime.deltaHours m₃.timestamp m₁.timestamp →
      (e._emit m₁ k W).1 = [m₁] ∧
      ((e._emit m₁ k W).2._emit m₂ k W).1 = [] ∧
      (((e._emit m₁ k W).2._emit m₂ k W).2._emit m₃ k W).1 = [m₃]) := by
  have base : ∀ (e : Engine) (msg : Message) (k : EventKind) (W : ℚ),
      (List.lookup (msg.sender, k) e.recent = none →
        e._emit msg k W =
          ([msg],
           { e with recent := updRecent e.recent (msg.sender, k) msg.timestamp })) ∧
      (∀ last, List.lookup (msg.sender, k) e.recent = some last →
        (SimTime.deltaHours msg.timestamp last < W →
          e._emit msg k W = ([], e)) ∧
        (W ≤ SimTime.deltaHours msg.timestamp last →
          e._emit msg k W =
            ([msg],
             { e with recent := updRecent e.recent (msg.sender, k) msg.timestamp }))) := by
    intro e msg k W
    constructor
    · intro h
      simp [Engine._emit, h]
    · intro last h
      constructor
      · intro hlt
        simp [Engine._emit, h, hlt]
      · intro hge
        simp [Engine._emit, h, not_lt.mpr hge]
  refine ⟨base, ?_, ?_⟩
  · intro kw hkw
    fin_cases hkw <;> exact ⟨by norm_num, by norm_num⟩
  · intro e m₁ m₂ m₃ k W hs2 hs3 h0 hlt hge
    have e1 := (base e m₁ k W).1 h0
    have hrec1 : (e._emit m₁ k W).2.recent =
        updRecent e.recent (m₁.sender, k) m₁.timestamp := by
      rw [e1]
    have hl1 : List.lookup (m₂.sender, k) (e._emit m₁ k W).2.recent =
        some m₁.timestamp := by
      rw [hrec1, hs2]
      exact lookup_updRecent_self _ _ _
    have e2 := ((base (e._emit m₁ k W).2 m₂ k W).2 m₁.timestamp hl1).1 hlt
    have hl2 : List.lookup (m₃.sender, k)
        ((e._emit m₁ k W).2._emit m₂ k W).2.recent = some m₁.timestamp := by
      rw [e2, hs3, ← hs2]
      exact hl1
    have e3 := ((base ((e._emit m₁ k W).2._emit m₂ k W).2 m₃ k W).2
      m₁.timestamp hl2).2 hge
    exact ⟨by rw [e1], by rw [e2], by rw [e3]⟩

/-- C5 witness: a fresh engine and three member-curiosity messages at
09:00, 10:00 and 13:00 with the 4-hour window: emitted, dropped,
emitted. -/
theorem emit_suppression_spec_witness :
    (Engine._emit {} { timestamp := ⟨0, 9, 0⟩, sender := "Rohan", text := "q1" }
      .member_curiosity 4).1 =
        [{ timestamp := ⟨0, 9, 0⟩, sender := "Rohan", text := "q1" }] ∧
    ((Engine._emit {} { timestamp := ⟨0, 9, 0⟩, sender := "Rohan", text := "q1" }
      .member_curiosity 4).2._emit
        { timestamp := ⟨0, 10, 0⟩, sender := "Rohan", text := "q2" }
        .member_curiosity 4).1 = [] ∧
    (((Engine._emit {} { timestamp := ⟨0, 9, 0⟩, sender := "Rohan", text := "q1" }
      .member_curiosity 4).2._emit
        { timestamp := ⟨0, 10, 0⟩, sender := "Rohan", text := "q2" }
        .member_curiosity 4).2._emit
        { timestamp := ⟨0, 13, 0⟩, sender := "Rohan", text := "q3" }
        .member_curiosity 4).1 =
        [{ timestamp := ⟨0, 13, 0⟩, sender := "Rohan", text := "q3" }] :=
  emit_suppression_spec.2.2 {}
    { timestamp := ⟨0, 9, 0⟩, sender := "Rohan", text := "q1" }
    { timestamp := ⟨0, 10, 0⟩, sender := "Rohan", text := "q2" }
    { timestamp := ⟨0, 13, 0⟩, sender := "Rohan", text := "q3" }
    .member_curiosity 4 rfl rfl rfl
    (by norm_num [SimTime.deltaHours, SimTime.totalMinutes])
    (by norm_num [SimTime.deltaHours, SimTime.totalMinutes])

/-- C8: the text-enhancement step falls back to the deterministic draft
body verbatim whenever the delegate is disabled (provider `none` or mode
`off`), raises any exception, times out (a transport/timeout error is
caught inside `_ollama_generate`), or returns an empty response; and the
Content Engine's `_enhance` — for every post-processing function and
every such failing environment — hands its caller the deterministic
draft (after the uniform `_tidy` cleanup), never a delegate error. -/
theorem enhance_fallback_spec :
    (∀ (cfg : NLGConfig) (oracle : Oracle) (oidx : ℕ) (post : PostProcess)
        (role event header base_body : String)
        (facts : List (String × String)) (r : Rng),
      cfg.provider = "none" ∨ cfg.mode = "off" →
      (enhance cfg oracle oidx post role event header base_body facts r).1 =
        base_body) ∧
    (∀ (cfg : NLGConfig) (oracle : Oracle) (oidx : ℕ) (post : PostProcess)
        (role event header base_body : String)
        (facts : List (String × String)) (r : Rng),
      (∀ j : ℕ, oracle j = .exn ∨ oracle j = .httpError ∨
        ∃ s, oracle j = .ok s ∧ strip s.data = []) →
      (enhance cfg oracle oidx post role event header base_body facts r).1 =
        base_body) ∧
    (∀ (e : Engine) (oracle : Oracle) (post : PostProcess)
        (role_key event header base_body : String)
        (facts : List (String × String)) (r : Rng),
      (e.nlg = none ∨ ∃ cfg, e.nlg = some cfg ∧
        (cfg.provider = "none" ∨ cfg.mode = "off" ∨
          ∀ j : ℕ, oracle j = .exn ∨ oracle j = .httpError ∨
            ∃ s, oracle j = .ok s ∧ strip s.data = [])) →
      (Engine._enhance e oracle post role_key event header base_body facts r).1 =
        tidyStr base_body) := by
  have part1 : ∀ (cfg : NLGConfig) (oracle : Oracle) (oidx : ℕ)
      (post : PostProcess) (role event header base_body : String)
      (facts : List (String × String)) (r : Rng),
      cfg.provider = "none" ∨ cfg.mode = "off" →
      (enhance cfg oracle oidx post role event header base_body facts r).1 =
        base_body := by
    intro cfg oracle oidx post role event header base_body facts r h
    simp [enhance, h]
  have part2 : ∀ (cfg : NLGConfig) (oracle : Oracle) (oidx : ℕ)
      (post : PostProcess) (role event header base_body : String)
      (facts : List (String × String)) (r : Rng),
      (∀ j : ℕ, oracle j = .exn ∨ oracle j = .httpError ∨
        ∃ s, oracle j = .ok s ∧ strip s.data = []) →
      (enhance cfg oracle oidx post role event header base_body facts r).1 =
        base_body := by
    intro cfg oracle oidx post role event header base_body facts r hfail
    by_cases hdis : cfg.provider = "none" ∨ cfg.mode = "off"
    · exact part1 cfg oracle oidx post role event header base_body facts r hdis
    · simp only [enhance, if_neg hdis]
      rcases horacle : oracle oidx with s | _ | _
      · rcases hfail oidx with h | h | ⟨s', hs', hstrip⟩
        · rw [horacle] at h; exact absurd h (by simp)
        · rw [horacle] at h; exact absurd h (by simp)
        · rw [horacle] at hs'
          have hss : s = s' := by injection hs'
          subst hss
          by_cases hm : cfg.mode = "paraphrase"
          · simp only [hm, if_pos rfl]
            simp [ollama_generate, horacle, show (⟨strip s.data⟩ : String) = "" from
              by rw [hstrip]]
          · by_cases hm2 : cfg.mode = "full"
            · simp only [hm, hm2]
              simp [ollama_generate, horacle, show (⟨strip s.data⟩ : String) = "" from
                by rw [hstrip]]
            · simp [hm, hm2]
      · by_cases hm : cfg.mode = "paraphrase"
        · simp [hm, ollama_generate, horacle,
            show ((⟨strip ("".data)⟩ : String) = "") from rfl]
        · by_cases hm2 : cfg.mode = "full"
          · simp [hm, hm2, ollama_generate, horacle,
              show ((⟨strip ("".data)⟩ : String) = "") from rfl]
          · simp [hm, hm2]
      · by_cases hm : cfg.mode = "paraphrase"
        · simp [hm, ollama_generate, horacle]
        · by_cases hm2 : cfg.mode = "full"
          · simp [hm, hm2, ollama_generate, horacle]
          · simp [hm, hm2]
  refine ⟨part1, part2, ?_⟩
  intro e oracle post role_key event header base_body facts r hfail
  rcases hnlg : e.nlg with _ | cfg
  · simp [Engine._enhance, hnlg]
  · rcases hfail with h | ⟨cfg', hcfg', hc⟩
    · rw [hnlg] at h; exact absurd h (by simp)
    · rw [hnlg] at hcfg'
      have : cfg = cfg' := by injection hcfg'
      subst this
      rcases hc with hc | hc | hc
      · simp only [Engine._enhance, hnlg]
        rw [part1 _ _ _ _ _ _ _ _ _ _ (Or.inl hc)]
      · simp only [Engine._enhance, hnlg]
        rw [part1 _ _ _ _ _ _ _ _ _ _ (Or.inr hc)]
      · simp only [Engine._enhance, hnlg]
        rw [part2 _ _ _ _ _ _ _ _ _ _ hc]

/-- C8 witness: a concrete engine with the delegate disabled and an
environment that always raises: the caller receives the tidied draft. -/
theorem enhance_fallback_spec_witness :
    (Engine._enhance {} (fun _ => .exn) (fun t _ _ r => (t, r)) "ruby"
      "weekly_report" "Weekly report:" "the draft body" [] ⟨fun _ => 0, fun _ => 0, 0, 0⟩).1 =
      tidyStr "the draft body" :=
  enhance_fallback_spec.2.2 {} (fun _ => .exn) (fun t _ _ r => (t, r)) "ruby"
    "weekly_report" "Weekly report:" "the draft body" []
    ⟨fun _ => 0, fun _ => 0, 0, 0⟩ (Or.inl rfl)

/-- C7 (counterexample): the final cleanup pass is not idempotent as
claimed; on the input `"?.."` one application yields `"?."` and a second
application yields `"?"` (the `"?."` rewrite cascades with the
multi-dot collapse). -/
theorem tidy_not_idempotent :
    tidyStr (tidyStr "?..") ≠ tidyStr "?.." := by
  decide

/-- C7 (amended): the cleanup pass `_tidy` is idempotent on every string
whose cleaned form contains no residue the pass would rewrite again: no
`"?."` or `"!."` pair, no run of dots or of whitespace, no
colon/semicolon dangling at a line end, no `"put attention on"` phrase,
only `'\n'` line breaks, and every line already capitalized.  (The
original claim — idempotence for every string — fails, e.g. on `"?.."`,
because one rewrite can cascade into a new rewritable pattern.) -/
theorem tidy_idempotent_no_cascade (s : String)
    (h1 : hasPair '?' '.' (tidy s.data) = false)
    (h2 : hasPair '!' '.' (tidy s.data) = false)
    (h3 : hasAdj (· = '.') (tidy s.data) = false)
    (h4 : hasAdj pySpace (tidy s.data) = false)
    (h5 : colonFree (tidy s.data) = true)
    (h6 : phraseFree "put attention on".data (tidy s.data) = true)
    (h7 : ∀ c ∈ tidy s.data, c ≠ '\x0d' ∧ c ≠ '\x0b' ∧ c ≠ '\x0c')
    (h8 : ∀ ln ∈ splitLines (tidy s.data), capLine ln = ln) :
    tidyStr (tidyStr s) = tidyStr s := by
  have h := tidy_fixed_point (tidy s.data) (tidy_stripped s.data)
    h1 h2 h3 h4 h5 h6 h7 h8
  simp only [tidyStr]
  exact congrArg String.mk h

/-- C7 witness: a concrete body on which the hypotheses of the amended
idempotence theorem hold and the cleanup pass is therefore idempotent. -/
theorem tidy_idempotent_no_cascade_witness :
    tidyStr (tidyStr "hello  world. ok?\nsee you!") =
      tidyStr "hello  world. ok?\nsee you!" :=
  tidy_idempotent_no_cascade "hello  world. ok?\nsee you!"
    (by decide) (by decide) (by decide) (by decide) (by decide)
    (by decide) (by decide) (by decide)

/-- C2 (code bug): the driver fires `begin_week` on *every* event whose
local time falls on Monday with hour 8-12, not only on the first such
event of the week — the `current_week` guard is computed but never used.
With two Monday-morning events in week 2 (09:00 and 10:00) the weekly
state update fires twice, contradicting the spec's "exactly once" rule
and the driver's own comment (run.py line 100). -/
theorem begin_week_fires_twice :
    (runDriver (build_travel_plan 2) (fun _ => .exn) (fun t _ _ r => (t, r))
      [ { kind := .weekly_report, week := 2, when := ⟨7, 9, 0⟩ }
      , { kind := .exercise_update, week := 2, when := ⟨7, 10, 0⟩ } ]
      { engine := {}, bio := {}, rng := ⟨fun _ => 0, fun _ => 0, 0, 0⟩ }).beginWeekLog
      = [2, 2] := rfl

/-- C4: `weekly_adherence_probability` equals the base probability with
the fixed additive modifiers (travel −0.15, busy −0.10, PA support
+0.10, last-week win +0.05, weekly hours above 5 −0.10) clamped to
[0.05, 0.95]; in particular the spec's instance (base 0.5, travel, PA
support, 4.0 weekly hours) evaluates to 0.45.  Arithmetic is exact
(rationals), as in the spec's statement of the modifiers. -/
theorem weekly_adherence_probability_spec :
    (∀ (base : ℚ) (travel pa_support busy_week last_week_win : Bool)
      (weekly_hours : ℚ),
      weekly_adherence_probability base travel pa_support busy_week
        last_week_win weekly_hours =
      max 0.05 (min 0.95
        (base - (if travel then 0.15 else 0) - (if busy_week then 0.10 else 0)
          + (if pa_support then 0.10 else 0)
          + (if last_week_win then 0.05 else 0)
          - (if weekly_hours > 5.0 then 0.10 else 0)))) ∧
    weekly_adherence_probability 0.5 true true false false 4.0 = 0.45 := by
  constructor
  · intro base travel pa_support busy_week last_week_win weekly_hours
    simp only [weekly_adherence_probability]
    congr 1
    congr 1
    cases travel <;> cases pa_support <;> cases busy_week <;>
      cases last_week_win <;> split_ifs <;> simp
  · simp only [weekly_adherence_probability]
    norm_num

-- ---------------------------------------------------------------------------
-- Frame lemmas: how the builders touch the (sender, kind) emission record
-- ---------------------------------------------------------------------------

theorem lookup_updRecent_other (m : List ((String × EventKind) × SimTime))
    (k k' : String × EventKind) (ts : SimTime) (h : k' ≠ k) :
    List.lookup k' (updRecent m k ts) = List.lookup k' m := by
  have hk : (k' == k) = false := beq_eq_false_iff_ne.mpr h
  induction m with
  | nil => simp [updRecent, List.lookup, hk]
  | cons kv rest ih =>
    simp only [updRecent]
    by_cases h1 : kv.1 == k
    · have hkv : kv.1 = k := by simpa using h1
      have h2 : (k' == kv.1) = false := by rw [hkv]; exact hk
      simp [h1, List.lookup, hk, h2]
    · simp only [h1, Bool.false_eq_true, if_false]
      cases h2 : (k' == kv.1) <;> simp [List.lookup, h2, ih]

theorem emit_fst_mem (e : Engine) (msg : Message) (k : EventKind) (W : ℚ)
    (m : Message) (hm : m ∈ (e._emit msg k W).1) : m = msg := by
  cases hl : List.lookup (msg.sender, k) e.recent with
  | none =>
    simp [Engine._emit, hl] at hm
    exact hm
  | some last =>
    by_cases hc : SimTime.deltaHours msg.timestamp last < W
    · simp [Engine._emit, hl, hc] at hm
    · simp [Engine._emit, hl, hc] at hm
      exact hm

theorem emit_recent_of_none (e : Engine) (msg : Message) (k : EventKind)
    (W : ℚ) (h : List.lookup (msg.sender, k) e.recent = none) :
    (e._emit msg k W).2.recent =
      updRecent e.recent (msg.sender, k) msg.timestamp := by
  simp [Engine._emit, h]

theorem emit_lookup_other (e : Engine) (msg : Message) (k : EventKind)
    (W : ℚ) (k' : String × EventKind) (h : k' ≠ (msg.sender, k)) :
    List.lookup k' (e._emit msg k W).2.recent =
      List.lookup k' e.recent := by
  cases hl : List.lookup (msg.sender, k) e.recent with
  | none => simp [Engine._emit, hl, lookup_updRecent_other _ _ _ _ h]
  | some last =>
    by_cases hc : SimTime.deltaHours msg.timestamp last < W
    · simp [Engine._emit, hl, hc]
    · simp [Engine._emit, hl, hc, lookup_updRecent_other _ _ _ _ h]

theorem remember_opener_recent (e : Engine) (rk t : String) :
    (e._remember_opener rk t).recent = e.recent := by
  simp only [Engine._remember_opener]
  split <;> rfl

theorem remember_opener_nlg (e : Engine) (rk t : String) :
    (e._remember_opener rk t).nlg = e.nlg := by
  simp only [Engine._remember_opener]
  split <;> rfl

theorem enhance_engine_recent (e : Engine) (oracle : Oracle)
    (post : PostProcess) (rk evs hd bb : String)
    (facts : List (String × String)) (r : Rng) :
    (Engine._enhance e oracle post rk evs hd bb facts r).2.1.recent =
      e.recent := by
  rcases he : e.nlg with _ | cfg <;> simp only [Engine._enhance, he] <;> rfl

theorem enhance_engine_nlg (e : Engine) (oracle : Oracle)
    (post : PostProcess) (rk evs hd bb : String)
    (facts : List (String × String)) (r : Rng) :
    (Engine._enhance e oracle post rk evs hd bb facts r).2.1.nlg =
      e.nlg := by
  rcases he : e.nlg with _ | cfg <;> simp only [Engine._enhance, he] <;> rfl

theorem emit_snd_nlg (e : Engine) (msg : Message) (k : EventKind) (W : ℚ) :
    (e._emit msg k W).2.nlg = e.nlg := by
  cases hl : List.lookup (msg.sender, k) e.recent with
  | none => simp [Engine._emit, hl]
  | some last =>
    by_cases hc : SimTime.deltaHours msg.timestamp last < W
    · simp [Engine._emit, hl, hc]
    · simp [Engine._emit, hl, hc]

theorem choice_fst_mem {α : Type} (r : Rng) (l : List α) (d : α)
    (h : l ≠ []) : (r.choice l d).1 ∈ l := by
  have hlen : 0 < l.length := List.length_pos.mpr h
  have hidx : r.ints r.i % l.length < l.length := Nat.mod_lt _ hlen
  simp only [Rng.choice, Rng.nextNat]
  rw [List.getD_eq_get _ _ hidx]
  exact List.get_mem _ _ hidx

-- Per-builder facts: every message an expert builder returns carries the
-- builder's timestamp, sender tag and kind, and is not member-initiated.

theorem nutrition_update_fst_mem (e : Engine) (o : Oracle) (p : PostProcess)
    (when : SimTime) (tr : Bool) (r : Rng) (m : Message)
    (hm : m ∈ (Engine.nutrition_update e o p when tr r).1) :
    m.timestamp = when ∧ m.sender = voiceTag "carla" ∧
      m.initiated_by_member = false ∧
      m.metaKind = some .nutrition_update := by
  simp only [Engine.nutrition_update] at hm
  have h := emit_fst_mem _ _ _ _ _ hm
  subst h
  exact ⟨rfl, rfl, rfl, rfl⟩

theorem medical_checkin_fst_mem (e : Engine) (o : Oracle) (p : PostProcess)
    (when : SimTime) (st : BiomarkerState) (r : Rng) (m : Message)
    (hm : m ∈ (Engine.medical_checkin e o p when st r).1) :
    m.timestamp = when ∧ m.sender = voiceTag "dr_warren" ∧
      m.initiated_by_member = false ∧
      m.metaKind = some .medical_checkin := by
  simp only [Engine.medical_checkin] at hm
  have h := emit_fst_mem _ _ _ _ _ hm
  subst h
  exact ⟨rfl, rfl, rfl, rfl⟩

theorem wearable_anomaly_fst_mem (e : Engine) (o : Oracle) (p : PostProcess)
    (when : SimTime) (st : BiomarkerState) (tr : Bool) (r : Rng) (m : Message)
    (hm : m ∈ (Engine.wearable_anomaly e o p when st tr r).1) :
    m.timestamp = when ∧ m.sender = voiceTag "advik" ∧
      m.initiated_by_member = false ∧
      m.metaKind = some .wearable_anomaly := by
  simp only [Engine.wearable_anomaly] at hm
  have h := emit_fst_mem _ _ _ _ _ hm
  subst h
  exact ⟨rfl, rfl, rfl, rfl⟩

theorem begin_week_engine_recent (e : Engine) (st : BiomarkerState)
    (travel busy : Bool) (r : Rng) :
    (e.begin_week st travel busy r).2.1.recent = e.recent := rfl

theorem begin_week_engine_nlg (e : Engine) (st : BiomarkerState)
    (travel busy : Bool) (r : Rng) :
    (e.begin_week st travel busy r).2.1.nlg = e.nlg := rfl

theorem member_curiosity_fst_mem (e : Engine) (when : SimTime) (r : Rng)
    (m : Message) (hm : m ∈ (e.member_curiosity when r).1) :
    m.timestamp = when ∧ m.sender = voiceTag "member" ∧
      m.initiated_by_member = true ∧
      m.metaKind = some .member_curiosity := by
  simp only [Engine.member_curiosity] at hm
  have h := emit_fst_mem _ _ _ _ _ hm
  subst h
  exact ⟨rfl, rfl, rfl, rfl⟩

theorem member_curiosity_lookup_other (e : Engine) (when : SimTime) (r : Rng)
    (k' : String × EventKind)
    (h : k' ≠ (voiceTag "member", EventKind.member_curiosity)) :
    List.lookup k' (e.member_curiosity when r).2.1.recent =
      List.lookup k' e.recent := by
  simp only [Engine.member_curiosity]
  exact emit_lookup_other _ _ _ _ _ h

/-- The shared tail of every builder: emit through the suppression gate,
then (on success) remember the opener; with no prior (sender, kind)
entry the recorded map gains exactly the new timestamp. -/
theorem builder_tail_recent (eN : Engine) (msg : Message) (k : EventKind)
    (W : ℚ) (rk body : String)
    (h : List.lookup (msg.sender, k) eN.recent = none) :
    (if ¬(eN._emit msg k W).1.isEmpty
      then (eN._emit msg k W).2._remember_opener rk body
      else (eN._emit msg k W).2).recent =
      updRecent eN.recent (msg.sender, k) msg.timestamp := by
  split
  · rw [remember_opener_recent]
    exact emit_recent_of_none _ _ _ _ h
  · exact emit_recent_of_none _ _ _ _ h

theorem nutrition_update_recent (e : Engine) (o : Oracle) (p : PostProcess)
    (when : SimTime) (tr : Bool) (r : Rng)
    (h : List.lookup (voiceTag "carla", EventKind.nutrition_update)
      e.recent = none) :
    (Engine.nutrition_update e o p when tr r).2.1.recent =
      updRecent e.recent (voiceTag "carla", EventKind.nutrition_update)
        when := by
  simp only [Engine.nutrition_update]
  refine (builder_tail_recent _ _ _ _ _ _ ?_).trans ?_
  · rw [enhance_engine_recent]
    exact h
  · rw [enhance_engine_recent]

theorem medical_checkin_recent (e : Engine) (o : Oracle) (p : PostProcess)
    (when : SimTime) (st : BiomarkerState) (r : Rng)
    (h : List.lookup (voiceTag "dr_warren", EventKind.medical_checkin)
      e.recent = none) :
    (Engine.medical_checkin e o p when st r).2.1.recent =
      updRecent e.recent (voiceTag "dr_warren", EventKind.medical_checkin)
        when := by
  simp only [Engine.medical_checkin]
  refine (builder_tail_recent _ _ _ _ _ _ ?_).trans ?_
  · rw [enhance_engine_recent]
    exact h
  · rw [enhance_engine_recent]

theorem wearable_anomaly_recent (e : Engine) (o : Oracle) (p : PostProcess)
    (when : SimTime) (st : BiomarkerState) (tr : Bool) (r : Rng)
    (h : List.lookup (voiceTag "advik", EventKind.wearable_anomaly)
      e.recent = none) :
    (Engine.wearable_anomaly e o p when st tr r).2.1.recent =
      updRecent e.recent (voiceTag "advik", EventKind.wearable_anomaly)
        when := by
  simp only [Engine.wearable_anomaly]
  refine (builder_tail_recent _ _ _ _ _ _ ?_).trans ?_
  · rw [enhance_engine_recent]
    exact h
  · rw [enhance_engine_recent]

/-- The member-curiosity branch of run.py 124-137 runs all three expert
builders eagerly: starting with no recorded entry for any of the three
expert (sender, kind) pairs, after the chain the emission record holds
the reply time for all three. -/
theorem curiosity_chain_spec (oracle : Oracle) (post : PostProcess)
    (eng : Engine) (bio : BiomarkerState) (rng : Rng) (t : SimTime)
    (tr : Bool)
    (h1 : List.lookup (voiceTag "carla", EventKind.nutrition_update)
      eng.recent = none)
    (h2 : List.lookup (voiceTag "dr_warren", EventKind.medical_checkin)
      eng.recent = none)
    (h3 : List.lookup (voiceTag "advik", EventKind.wearable_anomaly)
      eng.recent = none) :
    let m0 := eng.member_curiosity t rng
    let rt := t.minutes_apart 15
    let b1 := m0.2.1.nutrition_update oracle post rt tr m0.2.2
    let b2 := b1.2.1.medical_checkin oracle post rt bio b1.2.2
    let b3 := b2.2.1.wearable_anomaly oracle post rt bio tr b2.2.2
    List.lookup (voiceTag "carla", EventKind.nutrition_update)
        b3.2.1.recent = some rt ∧
    List.lookup (voiceTag "dr_warren", EventKind.medical_checkin)
        b3.2.1.recent = some rt ∧
    List.lookup (voiceTag "advik", EventKind.wearable_anomaly)
        b3.2.1.recent = some rt := by
  intro m0 rt b1 b2 b3
  have hc1 : List.lookup (voiceTag "carla", EventKind.nutrition_update)
      m0.2.1.recent = none :=
    (member_curiosity_lookup_other _ _ _ _ (by decide)).trans h1
  have hb1 := nutrition_update_recent m0.2.1 oracle post rt tr m0.2.2 hc1
  have hc2 : List.lookup (voiceTag "dr_warren", EventKind.medical_checkin)
      b1.2.1.recent = none := by
    rw [hb1, lookup_updRecent_other _ _ _ _ (by decide)]
    exact (member_curiosity_lookup_other _ _ _ _ (by decide)).trans h2
  have hb2 := medical_checkin_recent b1.2.1 oracle post rt bio b1.2.2 hc2
  have hc3 : List.lookup (voiceTag "advik", EventKind.wearable_anomaly)
      b2.2.1.recent = none := by
    rw [hb2, lookup_updRecent_other _ _ _ _ (by decide),
      hb1, lookup_updRecent_other _ _ _ _ (by decide)]
    exact (member_curiosity_lookup_other _ _ _ _ (by decide)).trans h3
  have hb3 := wearable_anomaly_recent b2.2.1 oracle post rt bio tr b2.2.2 hc3
  refine ⟨?_, ?_, ?_⟩
  · rw [hb3, lookup_updRecent_other _ _ _ _ (by decide),
      hb2, lookup_updRecent_other _ _ _ _ (by decide),
      hb1, lookup_updRecent_self]
  · rw [hb3, lookup_updRecent_other _ _ _ _ (by decide),
      hb2, lookup_updRecent_self]
  · rw [hb3, lookup_updRecent_self]

theorem emit_fst_of_none (e : Engine) (msg : Message) (k : EventKind)
    (W : ℚ) (h : List.lookup (msg.sender, k) e.recent = none) :
    (e._emit msg k W).1 = [msg] := by
  simp [Engine._emit, h]

theorem nutrition_update_fst_length (e : Engine) (o : Oracle)
    (p : PostProcess) (when : SimTime) (tr : Bool) (r : Rng)
    (h : List.lookup (voiceTag "carla", EventKind.nutrition_update)
      e.recent = none) :
    (Engine.nutrition_update e o p when tr r).1.length = 1 := by
  simp only [Engine.nutrition_update]
  rw [emit_fst_of_none]
  · rfl
  · rw [enhance_engine_recent]
    exact h

theorem medical_checkin_fst_length (e : Engine) (o : Oracle)
    (p : PostProcess) (when : SimTime) (st : BiomarkerState) (r : Rng)
    (h : List.lookup (voiceTag "dr_warren", EventKind.medical_checkin)
      e.recent = none) :
    (Engine.medical_checkin e o p when st r).1.length = 1 := by
  simp only [Engine.medical_checkin]
  rw [emit_fst_of_none]
  · rfl
  · rw [enhance_engine_recent]
    exact h

theorem wearable_anomaly_fst_length (e : Engine) (o : Oracle)
    (p : PostProcess) (when : SimTime) (st : BiomarkerState) (tr : Bool)
    (r : Rng)
    (h : List.lookup (voiceTag "advik", EventKind.wearable_anomaly)
      e.recent = none) :
    (Engine.wearable_anomaly e o p when st tr r).1.length = 1 := by
  simp only [Engine.wearable_anomaly]
  rw [emit_fst_of_none]
  · rfl
  · rw [enhance_engine_recent]
    exact h

/-- With no recorded entry for the three expert (sender, kind) pairs,
each of the three eagerly evaluated expert builders of run.py 130-136
emits exactly one message. -/
theorem curiosity_chain_emits (oracle : Oracle) (post : PostProcess)
    (eng : Engine) (bio : BiomarkerState) (rng : Rng) (t : SimTime)
    (tr : Bool)
    (h1 : List.lookup (voiceTag "carla", EventKind.nutrition_update)
      eng.recent = none)
    (h2 : List.lookup (voiceTag "dr_warren", EventKind.medical_checkin)
      eng.recent = none)
    (h3 : List.lookup (voiceTag "advik", EventKind.wearable_anomaly)
      eng.recent = none) :
    let m0 := eng.member_curiosity t rng
    let rt := t.minutes_apart 15
    let b1 := m0.2.1.nutrition_update oracle post rt tr m0.2.2
    let b2 := b1.2.1.medical_checkin oracle post rt bio b1.2.2
    let b3 := b2.2.1.wearable_anomaly oracle post rt bio tr b2.2.2
    b1.1.length = 1 ∧ b2.1.length = 1 ∧ b3.1.length = 1 := by
  intro m0 rt b1 b2 b3
  have hc1 : List.lookup (voiceTag "carla", EventKind.nutrition_update)
      m0.2.1.recent = none :=
    (member_curiosity_lookup_other _ _ _ _ (by decide)).trans h1
  have hb1 := nutrition_update_recent m0.2.1 oracle post rt tr m0.2.2 hc1
  have hc2 : List.lookup (voiceTag "dr_warren", EventKind.medical_checkin)
      b1.2.1.recent = none := by
    rw [hb1, lookup_updRecent_other _ _ _ _ (by decide)]
    exact (member_curiosity_lookup_other _ _ _ _ (by decide)).trans h2
  have hb2 := medical_checkin_recent b1.2.1 oracle post rt bio b1.2.2 hc2
  have hc3 : List.lookup (voiceTag "advik", EventKind.wearable_anomaly)
      b2.2.1.recent = none := by
    rw [hb2, lookup_updRecent_other _ _ _ _ (by decide),
      hb1, lookup_updRecent_other _ _ _ _ (by decide)]
    exact (member_curiosity_lookup_other _ _ _ _ (by decide)).trans h3
  exact ⟨nutrition_update_fst_length _ _ _ _ _ _ hc1,
    medical_checkin_fst_length _ _ _ _ _ _ hc2,
    wearable_anomaly_fst_length _ _ _ _ _ _ _ hc3⟩

/-- Any message of the randomly chosen result of the expert-builder
chain of run.py 130-136 carries the reply time, is not member-initiated
and is sent by one of the three expert voices. -/
theorem expert_choice_mem (oracle : Oracle) (post : PostProcess)
    (rt : SimTime) (tr : Bool) (bio : BiomarkerState) (e1 : Engine) (r1 : Rng)
    (b1 b2 b3 : List Message × Engine × Rng)
    (h1 : b1 = e1.nutrition_update oracle post rt tr r1)
    (h2 : b2 = b1.2.1.medical_checkin oracle post rt bio b1.2.2)
    (h3 : b3 = b2.2.1.wearable_anomaly oracle post rt bio tr b2.2.2)
    (m : Message) (hm : m ∈ (b3.2.2.choice [b1.1, b2.1, b3.1] []).1) :
    m.timestamp = rt ∧ m.initiated_by_member = false ∧
      m.sender ∈ [voiceTag "carla", voiceTag "dr_warren", voiceTag "advik"] := by
  have hch : (b3.2.2.choice [b1.1, b2.1, b3.1] []).1 ∈ [b1.1, b2.1, b3.1] :=
    choice_fst_mem _ _ _ (by simp)
  simp only [List.mem_cons, List.not_mem_nil, or_false] at hch
  rcases hch with h | h | h
  · rw [h, h1] at hm
    obtain ⟨ht, hs, hi, _⟩ := nutrition_update_fst_mem _ _ _ _ _ _ _ hm
    exact ⟨ht, hi, by rw [hs]; simp⟩
  · rw [h, h2] at hm
    obtain ⟨ht, hs, hi, _⟩ := medical_checkin_fst_mem _ _ _ _ _ _ _ hm
    exact ⟨ht, hi, by rw [hs]; simp⟩
  · rw [h, h3] at hm
    obtain ⟨ht, hs, hi, _⟩ := wearable_anomaly_fst_mem _ _ _ _ _ _ _ _ hm
    exact ⟨ht, hi, by rw [hs]; simp⟩

/-- C10: when the member-curiosity message itself is dropped by the
(sender, kind) suppression window, the driver still generates and
appends the randomly chosen expert reply: outside the Monday-morning
window, processing a member-curiosity event whose own emission is empty
extends the conversation by exactly the randomly chosen result of the
three-builder chain — which, when no prior expert emission blocks it, is
a non-empty expert reply, every message of which is stamped 15 simulated
minutes after the event, is not member-initiated, and is sent by one of
the three expert voices — so the conversation can contain an expert
reply with no preceding member question for that event. -/
theorem curiosity_suppressed_expert_reply (tp : TravelPlan) (oracle : Oracle)
    (post : PostProcess) (s : SimSt) (ev : Event)
    (hk : ev.kind = .member_curiosity)
    (hw : ¬(ev.when.weekday = 0 ∧ 8 ≤ ev.when.hour ∧ ev.when.hour ≤ 12))
    (hsup : (s.engine.member_curiosity ev.when s.rng).1 = [])
    (h1 : List.lookup (voiceTag "carla", EventKind.nutrition_update)
      s.engine.recent = none)
    (h2 : List.lookup (voiceTag "dr_warren", EventKind.medical_checkin)
      s.engine.recent = none)
    (h3 : List.lookup (voiceTag "advik", EventKind.wearable_anomaly)
      s.engine.recent = none) :
    let m0 := s.engine.member_curiosity ev.when s.rng
    let rt := ev.when.minutes_apart 15
    let tr := (tp.destination_for_week ev.week).isSome
    let b1 := m0.2.1.nutrition_update oracle post rt tr m0.2.2
    let b2 := b1.2.1.medical_checkin oracle post rt s.bio b1.2.2
    let b3 := b2.2.1.wearable_anomaly oracle post rt s.bio tr b2.2.2
    let reply := (b3.2.2.choice [b1.1, b2.1, b3.1] []).1
    (processEvent tp oracle post s ev).messages = s.messages ++ reply ∧
    reply ∈ [b1.1, b2.1, b3.1] ∧
    reply ≠ [] ∧
    ∀ m ∈ reply, m.timestamp = rt ∧ m.initiated_by_member = false ∧
      m.sender ∈ [voiceTag "carla", voiceTag "dr_warren", voiceTag "advik"] := by
  intro m0 rt tr b1 b2 b3 reply
  have hch : reply ∈ [b1.1, b2.1, b3.1] := choice_fst_mem _ _ _ (by simp)
  obtain ⟨l1, l2, l3⟩ :=
    curiosity_chain_emits oracle post s.engine s.bio s.rng ev.when tr h1 h2 h3
  refine ⟨?_, hch, ?_, fun m hm =>
    expert_choice_mem _ _ _ _ _ _ _ _ _ _ rfl rfl rfl m hm⟩
  · simp only [processEvent, hk, if_neg hw, hsup, List.append_nil]
  · have hch2 := hch
    simp only [List.mem_cons, List.not_mem_nil, or_false] at hch2
    rcases hch2 with h | h | h
    · rw [h]
      have lx : b1.1.length = 1 := l1
      intro hab
      rw [hab] at lx
      simp at lx
    · rw [h]
      have lx : b2.1.length = 1 := l2
      intro hab
      rw [hab] at lx
      simp at lx
    · rw [h]
      have lx : b3.1.length = 1 := l3
      intro hab
      rw [hab] at lx
      simp at lx

/-- Witness for C10: a Tuesday-14:00 member-curiosity event whose member
message is suppressed (a member-curiosity message was emitted an hour
earlier, inside the 4-hour window), on an engine with no recorded expert
emissions, extends the conversation by exactly the chosen — non-empty —
expert reply at 14:15. -/
theorem curiosity_suppressed_expert_reply_witness :
    ((Engine.member_curiosity
        { recent := [((voiceTag "member", EventKind.member_curiosity), ⟨1, 13, 0⟩)] }
        ⟨1, 14, 0⟩ ⟨fun _ => 0, fun _ => 0, 0, 0⟩).1 = [] ∧
     List.lookup (voiceTag "carla", EventKind.nutrition_update)
       ({ recent := [((voiceTag "member", EventKind.member_curiosity), ⟨1, 13, 0⟩)] }
         : Engine).recent = none ∧
     List.lookup (voiceTag "dr_warren", EventKind.medical_checkin)
       ({ recent := [((voiceTag "member", EventKind.member_curiosity), ⟨1, 13, 0⟩)] }
         : Engine).recent = none ∧
     List.lookup (voiceTag "advik", EventKind.wearable_anomaly)
       ({ recent := [((voiceTag "member", EventKind.member_curiosity), ⟨1, 13, 0⟩)] }
         : Engine).recent = none) ∧
    (let m0 := Engine.member_curiosity
        { recent := [((voiceTag "member", EventKind.member_curiosity), ⟨1, 13, 0⟩)] }
        ⟨1, 14, 0⟩ ⟨fun _ => 0, fun _ => 0, 0, 0⟩
     let rt := SimTime.minutes_apart ⟨1, 14, 0⟩ 15
     let tr := ((build_travel_plan 1).destination_for_week 1).isSome
     let b1 := m0.2.1.nutrition_update (fun _ => DelegateOutcome.exn)
        (fun t _ _ r => (t, r)) rt tr m0.2.2
     let b2 := b1.2.1.medical_checkin (fun _ => DelegateOutcome.exn)
        (fun t _ _ r => (t, r)) rt ({} : BiomarkerState) b1.2.2
     let b3 := b2.2.1.wearable_anomaly (fun _ => DelegateOutcome.exn)
        (fun t _ _ r => (t, r)) rt ({} : BiomarkerState) tr b2.2.2
     let reply := (b3.2.2.choice [b1.1, b2.1, b3.1] []).1
     (processEvent (build_travel_plan 1) (fun _ => DelegateOutcome.exn)
        (fun t _ _ r => (t, r))
        { engine := { recent := [((voiceTag "member", EventKind.member_curiosity), ⟨1, 13, 0⟩)] }
        , bio := {}, rng := ⟨fun _ => 0, fun _ => 0, 0, 0⟩ }
        { kind := .member_curiosity, week := 1, when := ⟨1, 14, 0⟩ }).messages
        = [] ++ reply ∧
     reply ∈ [b1.1, b2.1, b3.1] ∧
     reply ≠ [] ∧
     ∀ m ∈ reply, m.timestamp = rt ∧ m.initiated_by_member = false ∧
       m.sender ∈ [voiceTag "carla", voiceTag "dr_warren", voiceTag "advik"]) := by
  have hlt : SimTime.deltaHours ⟨1, 14, 0⟩ ⟨1, 13, 0⟩ < (4.0 : ℚ) := by
    norm_num [SimTime.deltaHours, SimTime.totalMinutes]
  have hs : (Engine.member_curiosity
      { recent := [((voiceTag "member", EventKind.member_curiosity), ⟨1, 13, 0⟩)] }
      ⟨1, 14, 0⟩ ⟨fun _ => 0, fun _ => 0, 0, 0⟩).1 = [] := by
    simp only [Engine.member_curiosity, Engine._emit, List.lookup,
      beq_self_eq_true, if_pos hlt]
  exact ⟨⟨hs, by decide, by decide, by decide⟩,
    curiosity_suppressed_expert_reply _ _ _ _ _ rfl (by decide) hs
      (by decide) (by decide) (by decide)⟩

/-- C6 counterexample: the claim says the two non-chosen expert builders
are not invoked and their per-(sender, kind) recent-emission entries are
left unchanged.  In fact run.py 130-136 builds the Python list passed to
random.choice by calling all three expert builders eagerly, so on a fresh
engine a single Tuesday-14:00 member-curiosity event records a reply-time
emission for all three expert (sender, kind) pairs — including the two
whose reply was not chosen (the entries change from absent to the reply
time). -/
theorem curiosity_event_updates_nonchosen_experts :
    List.lookup (voiceTag "carla", EventKind.nutrition_update)
      (processEvent (build_travel_plan 1) (fun _ => DelegateOutcome.exn)
        (fun t _ _ r => (t, r))
        { engine := {}, bio := {}, rng := ⟨fun _ => 0, fun _ => 0, 0, 0⟩ }
        { kind := .member_curiosity, week := 1, when := ⟨1, 14, 0⟩ }).engine.recent
      = some (SimTime.minutes_apart ⟨1, 14, 0⟩ 15) ∧
    List.lookup (voiceTag "dr_warren", EventKind.medical_checkin)
      (processEvent (build_travel_plan 1) (fun _ => DelegateOutcome.exn)
        (fun t _ _ r => (t, r))
        { engine := {}, bio := {}, rng := ⟨fun _ => 0, fun _ => 0, 0, 0⟩ }
        { kind := .member_curiosity, week := 1, when := ⟨1, 14, 0⟩ }).engine.recent
      = some (SimTime.minutes_apart ⟨1, 14, 0⟩ 15) ∧
    List.lookup (voiceTag "advik", EventKind.wearable_anomaly)
      (processEvent (build_travel_plan 1) (fun _ => DelegateOutcome.exn)
        (fun t _ _ r => (t, r))
        { engine := {}, bio := {}, rng := ⟨fun _ => 0, fun _ => 0, 0, 0⟩ }
        { kind := .member_curiosity, week := 1, when := ⟨1, 14, 0⟩ }).engine.recent
      = some (SimTime.minutes_apart ⟨1, 14, 0⟩ 15) := by
  have key := curiosity_chain_spec (fun _ => DelegateOutcome.exn)
    (fun t _ _ r => (t, r)) ({} : Engine) ({} : BiomarkerState)
    ⟨fun _ => 0, fun _ => 0, 0, 0⟩ ⟨1, 14, 0⟩
    ((build_travel_plan 1).destination_for_week 1).isSome rfl rfl rfl
  exact ⟨key.1, key.2.1, key.2.2⟩

/-- C6 (amended): processing a member-curiosity event invokes all three
expert builders (run.py builds the choice list eagerly), so — starting
with no recorded entry for the three expert (sender, kind) pairs — the
emission record afterwards holds the 15-minutes-later reply time for
all three, while the conversation is extended by the member message
followed by just one randomly chosen expert reply. -/
theorem member_curiosity_invokes_all_experts (tp : TravelPlan)
    (oracle : Oracle) (post : PostProcess) (s : SimSt) (ev : Event)
    (hk : ev.kind = .member_curiosity)
    (h1 : List.lookup (voiceTag "carla", EventKind.nutrition_update)
      s.engine.recent = none)
    (h2 : List.lookup (voiceTag "dr_warren", EventKind.medical_checkin)
      s.engine.recent = none)
    (h3 : List.lookup (voiceTag "advik", EventKind.wearable_anomaly)
      s.engine.recent = none) :
    (List.lookup (voiceTag "carla", EventKind.nutrition_update)
        (processEvent tp oracle post s ev).engine.recent =
      some (ev.when.minutes_apart 15) ∧
     List.lookup (voiceTag "dr_warren", EventKind.medical_checkin)
        (processEvent tp oracle post s ev).engine.recent =
      some (ev.when.minutes_apart 15) ∧
     List.lookup (voiceTag "advik", EventKind.wearable_anomaly)
        (processEvent tp oracle post s ev).engine.recent =
      some (ev.when.minutes_apart 15)) ∧
    ∃ pre reply : List Message,
      (processEvent tp oracle post s ev).messages =
        s.messages ++ pre ++ reply ∧
      (∀ m ∈ pre, m.timestamp = ev.when ∧ m.sender = voiceTag "member" ∧
        m.initiated_by_member = true) ∧
      (∀ m ∈ reply, m.timestamp = ev.when.minutes_apart 15 ∧
        m.initiated_by_member = false ∧
        m.sender ∈ [voiceTag "carla", voiceTag "dr_warren", voiceTag "advik"]) := by
  simp only [processEvent, hk]
  by_cases hc : ev.when.weekday = 0 ∧ 8 ≤ ev.when.hour ∧ ev.when.hour ≤ 12
  · simp only [if_pos hc]
    constructor
    · refine curiosity_chain_spec oracle post _ _ _ _ _ ?_ ?_ ?_
      · rw [begin_week_engine_recent]
        exact h1
      · rw [begin_week_engine_recent]
        exact h2
      · rw [begin_week_engine_recent]
        exact h3
    · refine ⟨_, _, rfl, ?_, ?_⟩
      · exact fun m hm =>
          have h := member_curiosity_fst_mem _ _ _ _ hm
          ⟨h.1, h.2.1, h.2.2.1⟩
      · exact fun m hm =>
          expert_choice_mem _ _ _ _ _ _ _ _ _ _ rfl rfl rfl m hm
  · simp only [if_neg hc]
    constructor
    · exact curiosity_chain_spec oracle post _ _ _ _ _ h1 h2 h3
    · refine ⟨_, _, rfl, ?_, ?_⟩
      · exact fun m hm =>
          have h := member_curiosity_fst_mem _ _ _ _ hm
          ⟨h.1, h.2.1, h.2.2.1⟩
      · exact fun m hm =>
          expert_choice_mem _ _ _ _ _ _ _ _ _ _ rfl rfl rfl m hm

/-- Witness for C6 (amended): a fresh engine and a Tuesday-14:00
member-curiosity event satisfy the staleness hypotheses, and the event
records all three expert reply-time entries while appending the member
message and one chosen expert reply. -/
theorem member_curiosity_invokes_all_experts_witness :
    (({ kind := .member_curiosity, week := 1, when := ⟨1, 14, 0⟩ } : Event).kind
        = EventKind.member_curiosity ∧
      List.lookup (voiceTag "carla", EventKind.nutrition_update)
        (({} : Engine)).recent = none ∧
      List.lookup (voiceTag "dr_warren", EventKind.medical_checkin)
        (({} : Engine)).recent = none ∧
      List.lookup (voiceTag "advik", EventKind.wearable_anomaly)
        (({} : Engine)).recent = none) ∧
    ((List.lookup (voiceTag "carla", EventKind.nutrition_update)
        (processEvent (build_travel_plan 1) (fun _ => DelegateOutcome.exn)
          (fun t _ _ r => (t, r))
          { engine := {}, bio := {}, rng := ⟨fun _ => 0, fun _ => 0, 0, 0⟩ }
          { kind := .member_curiosity, week := 1, when := ⟨1, 14, 0⟩ }).engine.recent =
      some (SimTime.minutes_apart ⟨1, 14, 0⟩ 15) ∧
      List.lookup (voiceTag "dr_warren", EventKind.medical_checkin)
        (processEvent (build_travel_plan 1) (fun _ => DelegateOutcome.exn)
          (fun t _ _ r => (t, r))
          { engine := {}, bio := {}, rng := ⟨fun _ => 0, fun _ => 0, 0, 0⟩ }
          { kind := .member_curiosity, week := 1, when := ⟨1, 14, 0⟩ }).engine.recent =
      some (SimTime.minutes_apart ⟨1, 14, 0⟩ 15) ∧
      List.lookup (voiceTag "advik", EventKind.wearable_anomaly)
        (processEvent (build_travel_plan 1) (fun _ => DelegateOutcome.exn)
          (fun t _ _ r => (t, r))
          { engine := {}, bio := {}, rng := ⟨fun _ => 0, fun _ => 0, 0, 0⟩ }
          { kind := .member_curiosity, week := 1, when := ⟨1, 14, 0⟩ }).engine.recent =
      some (SimTime.minutes_apart ⟨1, 14, 0⟩ 15)) ∧
    ∃ pre reply : List Message,
      (processEvent (build_travel_plan 1) (fun _ => DelegateOutcome.exn)
          (fun t _ _ r => (t, r))
          { engine := {}, bio := {}, rng := ⟨fun _ => 0, fun _ => 0, 0, 0⟩ }
          { kind := .member_curiosity, week := 1, when := ⟨1, 14, 0⟩ }).messages =
        [] ++ pre ++ reply ∧
      (∀ m ∈ pre, m.timestamp = (⟨1, 14, 0⟩ : SimTime) ∧
        m.sender = voiceTag "member" ∧ m.initiated_by_member = true) ∧
      (∀ m ∈ reply, m.timestamp = SimTime.minutes_apart ⟨1, 14, 0⟩ 15 ∧
        m.initiated_by_member = false ∧
        m.sender ∈ [voiceTag "carla", voiceTag "dr_warren", voiceTag "advik"])) :=
  ⟨⟨rfl, rfl, rfl, rfl⟩,
    member_curiosity_invokes_all_experts (build_travel_plan 1)
      (fun _ => DelegateOutcome.exn) (fun t _ _ r => (t, r))
      { engine := {}, bio := {}, rng := ⟨fun _ => 0, fun _ => 0, 0, 0⟩ }
      { kind := .member_curiosity, week := 1, when := ⟨1, 14, 0⟩ }
      rfl rfl rfl rfl⟩

-- ---------------------------------------------------------------------------
-- Determinism with enhancement disabled (C9): the run does not depend on
-- the delegate environment once the engine carries no NLG configuration
-- ---------------------------------------------------------------------------

theorem enhance_none (e : Engine) (o : Oracle) (p : PostProcess)
    (rk evs hd bb : String) (facts : List (String × String)) (r : Rng)
    (h : e.nlg = none) :
    Engine._enhance e o p rk evs hd bb facts r = (tidyStr bb, e, r) := by
  simp only [Engine._enhance, h]

/-- The shared builder tail preserves the NLG configuration. -/
theorem builder_tail_nlg (eN : Engine) (msg : Message) (k : EventKind)
    (W : ℚ) (rk body : String) :
    (if ¬(eN._emit msg k W).1.isEmpty
      then (eN._emit msg k W).2._remember_opener rk body
      else (eN._emit msg k W).2).nlg = eN.nlg := by
  split
  · rw [remember_opener_nlg, emit_snd_nlg]
  · rw [emit_snd_nlg]

theorem weekly_report_oracle_null (e : Engine) (o : Oracle)
    (p : PostProcess) (when : SimTime) (st : BiomarkerState) (r : Rng)
    (h : e.nlg = none) :
    Engine.weekly_report e o p when st r =
      Engine.weekly_report e nullOracle nullPost when st r := by
  simp only [Engine.weekly_report, enhance_none, h]

theorem exercise_update_oracle_null (e : Engine) (o : Oracle)
    (p : PostProcess) (when : SimTime) (r : Rng) (h : e.nlg = none) :
    Engine.exercise_update e o p when r =
      Engine.exercise_update e nullOracle nullPost when r := by
  simp only [Engine.exercise_update, enhance_none, h]

theorem medical_checkin_oracle_null (e : Engine) (o : Oracle)
    (p : PostProcess) (when : SimTime) (st : BiomarkerState) (r : Rng)
    (h : e.nlg = none) :
    Engine.medical_checkin e o p when st r =
      Engine.medical_checkin e nullOracle nullPost when st r := by
  simp only [Engine.medical_checkin, enhance_none, h]

theorem nutrition_update_oracle_null (e : Engine) (o : Oracle)
    (p : PostProcess) (when : SimTime) (tr : Bool) (r : Rng)
    (h : e.nlg = none) :
    Engine.nutrition_update e o p when tr r =
      Engine.nutrition_update e nullOracle nullPost when tr r := by
  simp only [Engine.nutrition_update, enhance_none, h]

theorem travel_adaptation_oracle_null (e : Engine) (o : Oracle)
    (p : PostProcess) (when : SimTime) (dest : String) (r : Rng)
    (h : e.nlg = none) :
    Engine.travel_adaptation e o p when dest r =
      Engine.travel_adaptation e nullOracle nullPost when dest r := by
  simp only [Engine.travel_adaptation, enhance_none, h]

theorem diagnostics_schedule_oracle_null (e : Engine) (o : Oracle)
    (p : PostProcess) (when : SimTime) (r : Rng) (h : e.nlg = none) :
    Engine.diagnostics_schedule e o p when r =
      Engine.diagnostics_schedule e nullOracle nullPost when r := by
  simp only [Engine.diagnostics_schedule, enhance_none, h]

theorem diagnostics_results_oracle_null (e : Engine) (o : Oracle)
    (p : PostProcess) (when : SimTime) (st : BiomarkerState) (r : Rng)
    (h : e.nlg = none) :
    Engine.diagnostics_results e o p when st r =
      Engine.diagnostics_results e nullOracle nullPost when st r := by
  simp only [Engine.diagnostics_results, enhance_none, h]

theorem wearable_anomaly_oracle_null (e : Engine) (o : Oracle)
    (p : PostProcess) (when : SimTime) (st : BiomarkerState) (tr : Bool)
    (r : Rng) (h : e.nlg = none) :
    Engine.wearable_anomaly e o p when st tr r =
      Engine.wearable_anomaly e nullOracle nullPost when st tr r := by
  simp only [Engine.wearable_anomaly, enhance_none, h]

theorem weekly_report_nlg (e : Engine) (o : Oracle) (p : PostProcess)
    (when : SimTime) (st : BiomarkerState) (r : Rng) :
    (Engine.weekly_report e o p when st r).2.1.nlg = e.nlg := by
  simp only [Engine.weekly_report]
  rw [builder_tail_nlg, enhance_engine_nlg]

theorem exercise_update_nlg (e : Engine) (o : Oracle) (p : PostProcess)
    (when : SimTime) (r : Rng) :
    (Engine.exercise_update e o p when r).2.1.nlg = e.nlg := by
  simp only [Engine.exercise_update]
  rw [builder_tail_nlg, enhance_engine_nlg]

theorem medical_checkin_nlg (e : Engine) (o : Oracle) (p : PostProcess)
    (when : SimTime) (st : BiomarkerState) (r : Rng) :
    (Engine.medical_checkin e o p when st r).2.1.nlg = e.nlg := by
  simp only [Engine.medical_checkin]
  rw [builder_tail_nlg, enhance_engine_nlg]

theorem nutrition_update_nlg (e : Engine) (o : Oracle) (p : PostProcess)
    (when : SimTime) (tr : Bool) (r : Rng) :
    (Engine.nutrition_update e o p when tr r).2.1.nlg = e.nlg := by
  simp only [Engine.nutrition_update]
  rw [builder_tail_nlg, enhance_engine_nlg]

theorem travel_adaptation_nlg (e : Engine) (o : Oracle) (p : PostProcess)
    (when : SimTime) (dest : String) (r : Rng) :
    (Engine.travel_adaptation e o p when dest r).2.1.nlg = e.nlg := by
  simp only [Engine.travel_adaptation]
  rw [builder_tail_nlg, enhance_engine_nlg]

theorem diagnostics_schedule_nlg (e : Engine) (o : Oracle) (p : PostProcess)
    (when : SimTime) (r : Rng) :
    (Engine.diagnostics_schedule e o p when r).2.1.nlg = e.nlg := by
  simp only [Engine.diagnostics_schedule]
  rw [builder_tail_nlg, enhance_engine_nlg]

theorem diagnostics_results_nlg (e : Engine) (o : Oracle) (p : PostProcess)
    (when : SimTime) (st : BiomarkerState) (r : Rng) :
    (Engine.diagnostics_results e o p when st r).2.1.nlg = e.nlg := by
  simp only [Engine.diagnostics_results]
  rw [builder_tail_nlg, enhance_engine_nlg]

theorem wearable_anomaly_nlg (e : Engine) (o : Oracle) (p : PostProcess)
    (when : SimTime) (st : BiomarkerState) (tr : Bool) (r : Rng) :
    (Engine.wearable_anomaly e o p when st tr r).2.1.nlg = e.nlg := by
  simp only [Engine.wearable_anomaly]
  rw [builder_tail_nlg, enhance_engine_nlg]

theorem member_curiosity_nlg (e : Engine) (when : SimTime) (r : Rng) :
    (e.member_curiosity when r).2.1.nlg = e.nlg := by
  simp only [Engine.member_curiosity]
  rw [emit_snd_nlg]

theorem pa_scheduling_ack_nlg (e : Engine) (when : SimTime) (r : Rng) :
    (e.pa_scheduling_ack when r).2.1.nlg = e.nlg := by
  simp only [Engine.pa_scheduling_ack]
  rw [emit_snd_nlg]

/-- One driver step preserves the absence of an NLG configuration. -/
theorem processEvent_nlg (tp : TravelPlan) (o : Oracle) (p : PostProcess)
    (s : SimSt) (ev : Event) (h : s.engine.nlg = none) :
    (processEvent tp o p s ev).engine.nlg = none := by
  rcases ev with ⟨k, w, t, d⟩
  by_cases hc : t.weekday = 0 ∧ 8 ≤ t.hour ∧ t.hour ≤ 12
  · cases k <;>
      simp only [processEvent, if_pos hc, begin_week_engine_nlg,
        weekly_report_nlg, exercise_update_nlg, medical_checkin_nlg,
        nutrition_update_nlg, travel_adaptation_nlg, diagnostics_schedule_nlg,
        diagnostics_results_nlg, wearable_anomaly_nlg, member_curiosity_nlg,
        pa_scheduling_ack_nlg, h]
  · cases k <;>
      simp only [processEvent, if_neg hc, begin_week_engine_nlg,
        weekly_report_nlg, exercise_update_nlg, medical_checkin_nlg,
        nutrition_update_nlg, travel_adaptation_nlg, diagnostics_schedule_nlg,
        diagnostics_results_nlg, wearable_anomaly_nlg, member_curiosity_nlg,
        pa_scheduling_ack_nlg, h]

/-- One driver step with no NLG configuration does not depend on the
delegate environment. -/
theorem processEvent_oracle_null (tp : TravelPlan) (o : Oracle)
    (p : PostProcess) (s : SimSt) (ev : Event) (h : s.engine.nlg = none) :
    processEvent tp o p s ev = processEvent tp nullOracle nullPost s ev := by
  rcases ev with ⟨k, w, t, d⟩
  by_cases hc : t.weekday = 0 ∧ 8 ≤ t.hour ∧ t.hour ≤ 12
  · cases k <;>
      simp only [processEvent, if_pos hc, weekly_report_oracle_null,
        exercise_update_oracle_null, medical_checkin_oracle_null,
        nutrition_update_oracle_null, travel_adaptation_oracle_null,
        diagnostics_schedule_oracle_null, diagnostics_results_oracle_null,
        wearable_anomaly_oracle_null, begin_week_engine_nlg,
        member_curiosity_nlg, nutrition_update_nlg, medical_checkin_nlg,
        diagnostics_schedule_nlg, h]
  · cases k <;>
      simp only [processEvent, if_neg hc, weekly_report_oracle_null,
        exercise_update_oracle_null, medical_checkin_oracle_null,
        nutrition_update_oracle_null, travel_adaptation_oracle_null,
        diagnostics_schedule_oracle_null, diagnostics_results_oracle_null,
        wearable_anomaly_oracle_null, begin_week_engine_nlg,
        member_curiosity_nlg, nutrition_update_nlg, medical_checkin_nlg,
        diagnostics_schedule_nlg, h]

/-- The whole event loop with no NLG configuration does not depend on the
delegate environment. -/
theorem runDriver_oracle_null (tp : TravelPlan) (o : Oracle)
    (p : PostProcess) (events : List Event) (s : SimSt)
    (h : s.engine.nlg = none) :
    runDriver tp o p events s = runDriver tp nullOracle nullPost events s := by
  induction events generalizing s with
  | nil => rfl
  | cons ev rest ih =>
    simp only [runDriver, List.foldl_cons]
    rw [processEvent_oracle_null tp o p s ev h]
    exact ih _ (processEvent_nlg tp nullOracle nullPost s ev h)

theorem runPipeline_oracle_null (weeks : ℕ) (o : Oracle) (p : PostProcess)
    (r : Rng) :
    runPipeline weeks none o p r =
      runPipeline weeks none nullOracle nullPost r := by
  simp only [runPipeline]
  exact runDriver_oracle_null _ _ _ _ _ rfl

/-- C9: with enhancement disabled (provider "none" or mode "off", so
NLGEngine.from_args yields no delegate), the full pipeline is a
deterministic function of the week count and the seeded generator: two
executions — whatever the external delegate environment and its
post-processing do, the only source of non-determinism besides the
seeded generator — produce identical final states, in particular
byte-identical message sequences (timestamps, senders, bodies, flags
and order). -/
theorem pipeline_deterministic_when_disabled (weeks : ℕ)
    (provider mode model : String) (hd : provider = "none" ∨ mode = "off")
    (o₁ o₂ : Oracle) (p₁ p₂ : PostProcess) (r : Rng) :
    runPipeline weeks (nlg_from_args provider mode model) o₁ p₁ r =
      runPipeline weeks (nlg_from_args provider mode model) o₂ p₂ r ∧
    (runPipeline weeks (nlg_from_args provider mode model) o₁ p₁ r).messages =
      (runPipeline weeks (nlg_from_args provider mode model) o₂ p₂ r).messages := by
  have hn : nlg_from_args provider mode model = none := by
    simp only [nlg_from_args, if_pos hd]
  rw [hn]
  have h12 := (runPipeline_oracle_null weeks o₁ p₁ r).trans
    (runPipeline_oracle_null weeks o₂ p₂ r).symm
  exact ⟨h12, by rw [h12]⟩

/-- Witness for C9: provider "none" disables enhancement, and a 1-week
run with an always-succeeding delegate equals the same run with an
always-failing delegate and a different post-processing function. -/
theorem pipeline_deterministic_when_disabled_witness :
    ("none" = "none" ∨ "paraphrase" = "off") ∧
    (runPipeline 1 (nlg_from_args "none" "paraphrase" "llama3.1:8b")
        (fun _ => DelegateOutcome.ok "ignored") (fun t _ _ r => (t ++ "!", r))
        ⟨fun _ => 0, fun _ => 0, 0, 0⟩ =
      runPipeline 1 (nlg_from_args "none" "paraphrase" "llama3.1:8b")
        nullOracle nullPost ⟨fun _ => 0, fun _ => 0, 0, 0⟩ ∧
     (runPipeline 1 (nlg_from_args "none" "paraphrase" "llama3.1:8b")
        (fun _ => DelegateOutcome.ok "ignored") (fun t _ _ r => (t ++ "!", r))
        ⟨fun _ => 0, fun _ => 0, 0, 0⟩).messages =
      (runPipeline 1 (nlg_from_args "none" "paraphrase" "llama3.1:8b")
        nullOracle nullPost ⟨fun _ => 0, fun _ => 0, 0, 0⟩).messages) :=
  ⟨Or.inl rfl,
    pipeline_deterministic_when_disabled 1 "none" "paraphrase" "llama3.1:8b"
      (Or.inl rfl) (fun _ => DelegateOutcome.ok "ignored") nullOracle
      (fun t _ _ r => (t ++ "!", r)) nullPost
      ⟨fun _ => 0, fun _ => 0, 0, 0⟩⟩

end Elyx
